import Mathlib

/-
Shallow embedding of the PhysicsLLM 2D physics engine.

Sources embedded:
  src/services/physics/math.ts          (Vec2 vector algebra)
  src/services/physicsEngine.ts         (PhysicsEngine: add / addCloth / connect /
                                         reset / step / applyForces / integrate /
                                         updateGeometry / drag / log)
  src/services/physics/FluidSystem.ts   (ConstraintSystem.solve and the FluidSystem
                                         GPU kernels updateVelSource / updatePosSource)
  src/unnamed/part_002                  (CollisionSystem: resolve / detectCollision /
                                         circleVsCircle / polygonVsPolygon /
                                         circleVsPolygon / projectVertices /
                                         projectCircle / applyResolution)
  src/components/DataLogs.tsx           (constants GRAVITY, DT, MATERIALS)

JavaScript numbers are modelled as real numbers.  JavaScript's `x || d` default
idiom (which replaces the falsy values 0 / undefined / "" by the default) is
modelled by the helpers jsOr / jsOrS / jsOrN.  Object references mutated in
place are modelled by value-passing: the object array is a `List SimObject` and
an in-place mutation becomes a `List.set` at the index the object was read
from.  The GPU particle textures are grids acted on pointwise; they are
modelled as functions from the cell index.
-/

set_option maxHeartbeats 1000000

noncomputable section

namespace PhysicsLLM

/-! ### Vec2 — src/services/physics/math.ts -/

structure Vec2 where
  x : ℝ
  y : ℝ

namespace Vec2

def add (v1 v2 : Vec2) : Vec2 := ⟨v1.x + v2.x, v1.y + v2.y⟩

def sub (v1 v2 : Vec2) : Vec2 := ⟨v1.x - v2.x, v1.y - v2.y⟩

def mul (v : Vec2) (s : ℝ) : Vec2 := ⟨v.x * s, v.y * s⟩

def div (v : Vec2) (s : ℝ) : Vec2 := ⟨v.x / s, v.y / s⟩

def dot (v1 v2 : Vec2) : ℝ := v1.x * v2.x + v1.y * v2.y

def len (v : Vec2) : ℝ := Real.sqrt (v.x * v.x + v.y * v.y)

def lenSq (v : Vec2) : ℝ := v.x * v.x + v.y * v.y

def dist (v1 v2 : Vec2) : ℝ := Real.sqrt ((v1.x - v2.x) ^ 2 + (v1.y - v2.y) ^ 2)

def normalize (v : Vec2) : Vec2 :=
  let l := Real.sqrt (v.x * v.x + v.y * v.y)
  if l = 0 then ⟨0, 0⟩ else ⟨v.x / l, v.y / l⟩

def cross (v1 v2 : Vec2) : ℝ := v1.x * v2.y - v1.y * v2.x

def rotate (v : Vec2) (angle : ℝ) : Vec2 :=
  ⟨v.x * Real.cos angle - v.y * Real.sin angle, v.x * Real.sin angle + v.y * Real.cos angle⟩

def perp (v : Vec2) : Vec2 := ⟨-v.y, v.x⟩

def clamp (val lo hi : ℝ) : ℝ := max lo (min hi val)

end Vec2

/-! ### Data model — src/types.ts -/

inductive ShapeType where
  | box
  | circle
  | plane
  | cloth
deriving DecidableEq

inductive MaterialType where
  | steel
  | wood
  | rubber
  | concrete
  | cloth
deriving DecidableEq

structure Material where
  density : ℝ
  restitution : ℝ
  friction : ℝ
  color : String

structure SimObjectConfig where
  mass : Option ℝ := none
  material : Option MaterialType := none
  x : Option ℝ := none
  y : Option ℝ := none
  width : Option ℝ := none
  height : Option ℝ := none
  radius : Option ℝ := none
  fixed : Option Bool := none
  color : Option String := none
  vx : Option ℝ := none
  vy : Option ℝ := none
  angle : Option ℝ := none
  segmentsX : Option ℕ := none
  segmentsY : Option ℕ := none
  pinTop : Option Bool := none

structure SimObject where
  id : String
  type : ShapeType
  mass : ℝ
  invMass : ℝ
  inertia : ℝ
  invInertia : ℝ
  pos : Vec2
  oldPos : Vec2
  vel : Vec2
  force : Vec2
  angle : ℝ
  oldAngle : ℝ
  restitution : ℝ
  friction : ℝ
  width : ℝ
  height : ℝ
  radius : ℝ
  fixed : Bool
  color : String
  vertices : List Vec2

structure Constraint where
  id : String
  type : String
  bodyA : String
  bodyB : String
  length : ℝ
  stiffness : ℝ
  color : String

structure Manifold where
  bodyA : SimObject
  bodyB : SimObject
  normal : Vec2
  depth : ℝ
  hasCollision : Bool

instance : DecidableEq SimObject := Classical.decEq _

/-! ### Constants — src/components/DataLogs.tsx (constants module) -/

def GRAVITY : ℝ := 9.81

def DT : ℝ := 1 / 60

def MATERIALS : MaterialType → Material
  | .steel => ⟨7850, 0.5, 0.4, "#95a5a6"⟩
  | .wood => ⟨700, 0.2, 0.6, "#d35400"⟩
  | .rubber => ⟨1100, 0.8, 0.9, "#e74c3c"⟩
  | .concrete => ⟨2400, 0.1, 0.8, "#7f8c8d"⟩
  | .cloth => ⟨500, 0.1, 0.9, "#e67e22"⟩

def defaultMaterial : Material := ⟨1000, 0.5, 0.5, "#3498db"⟩

/-! ### JavaScript default-value idiom -/

/-- JavaScript `v || d` for an optional number: 0 and undefined are falsy. -/
def jsOr (v : Option ℝ) (d : ℝ) : ℝ :=
  match v with
  | none => d
  | some x => if x = 0 then d else x

/-- JavaScript `v || d` for an optional string: "" and undefined are falsy. -/
def jsOrS (v : Option String) (d : String) : String :=
  match v with
  | none => d
  | some s => if s = "" then d else s

/-- JavaScript `v || d` for an optional natural count: 0 and undefined are falsy. -/
def jsOrN (v : Option ℕ) (d : ℕ) : ℕ :=
  match v with
  | none => d
  | some n => if n = 0 then d else n

/-! ### CollisionSystem — src/unnamed/part_002 -/

namespace CollisionSystem

/-- projectVertices: min/max of the dot products of the vertices with the axis.
The source seeds the scan with Infinity / -Infinity; for the nonempty vertex
lists the collision routines are called on, that is the same as folding from
the first vertex, which is how we model it. -/
def projectVertices (vertices : List Vec2) (axis : Vec2) : ℝ × ℝ :=
  match vertices with
  | [] => (0, 0)
  | v :: vs =>
    vs.foldl (fun p w => (min p.1 (Vec2.dot w axis), max p.2 (Vec2.dot w axis)))
      (Vec2.dot v axis, Vec2.dot v axis)

def projectCircle (circle : SimObject) (axis : Vec2) : ℝ × ℝ :=
  let centerProj := Vec2.dot circle.pos axis
  (centerProj - circle.radius, centerProj + circle.radius)

/-- The separating check `minA >= maxB || minB >= maxA` from the SAT loops. -/
def sepOn (aV bV : List Vec2) (axis : Vec2) : Prop :=
  (projectVertices bV axis).2 ≤ (projectVertices aV axis).1 ∨
    (projectVertices aV axis).2 ≤ (projectVertices bV axis).1

instance (aV bV : List Vec2) (axis : Vec2) : Decidable (sepOn aV bV axis) := by
  unfold sepOn; infer_instance

/-- The per-axis overlap `Math.min(maxB - minA, maxA - minB)` from the SAT loops. -/
def overlapOn (aV bV : List Vec2) (axis : Vec2) : ℝ :=
  min ((projectVertices bV axis).2 - (projectVertices aV axis).1)
    ((projectVertices aV axis).2 - (projectVertices bV axis).1)

/-- The perpendicular edge axes of a polygon: for each i, the normalized
perpendicular of vertices[(i+1) % n] - vertices[i].  The source computes these
inline in its SAT loops. -/
def axesOf (verts : List Vec2) : List Vec2 :=
  (List.range verts.length).map fun i =>
    let v1 := verts.getD i ⟨0, 0⟩
    let v2 := verts.getD ((i + 1) % verts.length) ⟨0, 0⟩
    Vec2.normalize (Vec2.perp (Vec2.sub v2 v1))

/-- The SAT loop over the candidate axes.  The accumulator is the tracked
(normal, depth) pair; `none` stands for the initial depth = Infinity state
(in the source any finite axisDepth beats Infinity, so the first surviving
axis always loads the accumulator).  The outer `none` is the early
`return null` on a separating axis. -/
def satScan (aV bV : List Vec2) : List Vec2 → Option (Vec2 × ℝ) → Option (Option (Vec2 × ℝ))
  | [], acc => some acc
  | axis :: rest, acc =>
    if sepOn aV bV axis then none
    else
      let d := overlapOn aV bV axis
      let acc' : Option (Vec2 × ℝ) :=
        match acc with
        | none => some (axis, d)
        | some (n, bd) => if d < bd then some (axis, d) else some (n, bd)
      satScan aV bV rest acc'

def circleVsCircle (A B : SimObject) : Manifold :=
  let n := Vec2.sub B.pos A.pos
  let distSq := Vec2.lenSq n
  let radiusSum := A.radius + B.radius
  if radiusSum * radiusSum < distSq then
    { bodyA := A, bodyB := B, normal := ⟨0, 0⟩, depth := 0, hasCollision := false }
  else
    let dist := Real.sqrt distSq
    if dist = 0 then
      { bodyA := A, bodyB := B, normal := ⟨1, 0⟩, depth := radiusSum, hasCollision := true }
    else
      { bodyA := A, bodyB := B, normal := Vec2.div n dist, depth := radiusSum - dist,
        hasCollision := true }

/-- polygonVsPolygon: scan the edge axes of A then of B (we concatenate the
two source loops into one scan over the concatenated axis list), early-out on
a separating axis, then canonicalize the minimum-overlap axis to point from A
to B.  The `some none` case (no axis was scanned, depth still Infinity) can
only arise from an empty vertex list, which the box routines never produce;
we return no manifold there to stay total. -/
def polygonVsPolygon (A B : SimObject) : Option Manifold :=
  match satScan A.vertices B.vertices (axesOf A.vertices ++ axesOf B.vertices) none with
  | none => none
  | some none => none
  | some (some (n, d)) =>
    let direction := Vec2.sub B.pos A.pos
    let normal := if Vec2.dot direction n < 0 then Vec2.mul n (-1) else n
    some { bodyA := A, bodyB := B, normal := normal, depth := d, hasCollision := true }

/-- The circle-axis part of circleVsPolygon: the closest polygon vertex to the
circle center (the source tracks the min squared distance with a strict
comparison, keeping the first vertex on ties). -/
def closestVertex (pos : Vec2) : List Vec2 → Vec2 → Vec2
  | [], best => best
  | v :: vs, best =>
    if Vec2.lenSq (Vec2.sub pos v) < Vec2.lenSq (Vec2.sub pos best) then
      closestVertex pos vs v
    else
      closestVertex pos vs best

/-- The projected extent of the circle on an axis together with the polygon,
as one scan step: returns none if the projections separate. -/
def circleAxisCheck (circle : SimObject) (pV : List Vec2) (axis : Vec2) : Option ℝ :=
  let pa := projectCircle circle axis
  let pb := projectVertices pV axis
  if pb.2 ≤ pa.1 ∨ pa.2 ≤ pb.1 then none
  else some (min (pb.2 - pa.1) (pa.2 - pb.1))

/-- The polygon-axis loop of circleVsPolygon (same accumulator convention as
satScan, with the circle projected instead of the first vertex list). -/
def circleSatScan (circle : SimObject) (pV : List Vec2) :
    List Vec2 → Option (Vec2 × ℝ) → Option (Option (Vec2 × ℝ))
  | [], acc => some acc
  | axis :: rest, acc =>
    match circleAxisCheck circle pV axis with
    | none => none
    | some d =>
      let acc' : Option (Vec2 × ℝ) :=
        match acc with
        | none => some (axis, d)
        | some (n, bd) => if d < bd then some (axis, d) else some (n, bd)
      circleSatScan circle pV rest acc'

def circleVsPolygon (circle polygon : SimObject) : Option Manifold :=
  match circleSatScan circle polygon.vertices (axesOf polygon.vertices) none with
  | none => none
  | some acc =>
    match polygon.vertices with
    | [] => none
    | pv0 :: pvRest =>
      let closest := closestVertex circle.pos pvRest pv0
      let axis := Vec2.normalize (Vec2.sub closest circle.pos)
      match circleAxisCheck circle polygon.vertices axis with
      | none => none
      | some d2 =>
        let best : Vec2 × ℝ :=
          match acc with
          | none => (axis, d2)
          | some (n, bd) => if d2 < bd then (axis, d2) else (n, bd)
        let direction := Vec2.sub polygon.pos circle.pos
        let normal := if Vec2.dot direction best.1 < 0 then Vec2.mul best.1 (-1) else best.1
        some { bodyA := circle, bodyB := polygon, normal := normal, depth := best.2,
               hasCollision := true }

/-- detectCollision: dispatch on the shape-kind pair, flipping arguments so the
three routines cover every combination (src/unnamed/part_002 lines 33-47). -/
def detectCollision (A B : SimObject) : Option Manifold :=
  if A.type = ShapeType.circle ∧ B.type = ShapeType.circle then some (circleVsCircle A B)
  else if A.type = ShapeType.box ∧ B.type = ShapeType.box then polygonVsPolygon A B
  else if A.type = ShapeType.circle ∧ B.type = ShapeType.box then circleVsPolygon A B
  else if A.type = ShapeType.box ∧ B.type = ShapeType.circle then circleVsPolygon B A
  else if A.type = ShapeType.plane ∧ B.type = ShapeType.box then polygonVsPolygon B A
  else if A.type = ShapeType.box ∧ B.type = ShapeType.plane then polygonVsPolygon A B
  else if A.type = ShapeType.plane ∧ B.type = ShapeType.circle then circleVsPolygon B A
  else if A.type = ShapeType.circle ∧ B.type = ShapeType.plane then circleVsPolygon A B
  else none

/-- applyResolution: positional correction proportional to invMass shares,
then a friction nudge applied to the old positions.  The source mutates the
manifold's two bodies; we return the updated pair (bodyA first). -/
def applyResolution (m : Manifold) : SimObject × SimObject :=
  let invMassA := m.bodyA.invMass
  let invMassB := m.bodyB.invMass
  let invMassSum := invMassA + invMassB
  if invMassSum = 0 then (m.bodyA, m.bodyB)
  else
    let separation := Vec2.mul m.normal m.depth
    let moveA := Vec2.mul separation (-invMassA / invMassSum)
    let moveB := Vec2.mul separation (invMassB / invMassSum)
    let A1 := if m.bodyA.fixed then m.bodyA else { m.bodyA with pos := Vec2.add m.bodyA.pos moveA }
    let B1 := if m.bodyB.fixed then m.bodyB else { m.bodyB with pos := Vec2.add m.bodyB.pos moveB }
    let tangent := Vec2.normalize (Vec2.perp m.normal)
    let velA := Vec2.sub A1.pos A1.oldPos
    let velB := Vec2.sub B1.pos B1.oldPos
    let relVel := Vec2.sub velB velA
    let tanVel := Vec2.dot relVel tangent
    let mu := min m.bodyA.friction m.bodyB.friction
    let frictionImpulse := Vec2.mul tangent (tanVel * mu)
    let A2 := if A1.fixed then A1
      else { A1 with oldPos := Vec2.add A1.oldPos (Vec2.mul frictionImpulse 0.5) }
    let B2 := if B1.fixed then B1
      else { B1 with oldPos := Vec2.sub B1.oldPos (Vec2.mul frictionImpulse 0.5) }
    (A2, B2)

/-- One iteration of resolve's nested pair loop: read A = objects[i] and
B = objects[j], skip fixed-fixed pairs, detect, and on a collision write the
resolved bodies back.  The source mutates the manifold's bodies through
references; we write the updated values back to the indices they came from
(the manifold holds A and B in dispatch order). -/
def resolvePair (objs : List SimObject) (ij : ℕ × ℕ) : List SimObject :=
  match objs[ij.1]?, objs[ij.2]? with
  | some A, some B =>
    if A.fixed && B.fixed then objs
    else
      match detectCollision A B with
      | some m =>
        if m.hasCollision then
          let r := applyResolution m
          if m.bodyA = A then (objs.set ij.1 r.1).set ij.2 r.2
          else (objs.set ij.1 r.2).set ij.2 r.1
        else objs
      | none => objs
  | _, _ => objs

/-- The index pairs (i, j) with i < j < n visited by the broad phase. -/
def pairIndices (n : ℕ) : List (ℕ × ℕ) :=
  (List.range n).flatMap fun i => ((List.range n).drop (i + 1)).map fun j => (i, j)

/-- resolve: exhaustive pairwise scan (the onCollision callback the engine
passes has an empty body, so it is omitted here). -/
def resolve (objs : List SimObject) : List SimObject :=
  (pairIndices objs.length).foldl resolvePair objs

end CollisionSystem

/-! ### ConstraintSystem — src/services/physics/FluidSystem.ts (second file part) -/

namespace ConstraintSystem

/-- One constraint of one solve pass.  The source looks both bodies up in the
id-keyed object map and mutates them; we locate the first list entry with the
id (ids are unique by construction) and write the moved bodies back. -/
def solveConstraint (objs : List SimObject) (c : Constraint) : List SimObject :=
  match objs.findIdx? (fun o => o.id == c.bodyA), objs.findIdx? (fun o => o.id == c.bodyB) with
  | some iA, some iB =>
    match objs[iA]?, objs[iB]? with
    | some bodyA, some bodyB =>
      if bodyA.fixed && bodyB.fixed then objs
      else
        let currentDist := Vec2.dist bodyA.pos bodyB.pos
        if currentDist = 0 then objs
        else
          let delta := currentDist - c.length
          let correction := delta / currentDist
          let vec := Vec2.sub bodyB.pos bodyA.pos
          let force := c.stiffness * 0.5
          let nudge := Vec2.mul vec (correction * force)
          let bodyA' := if bodyA.fixed then bodyA
            else { bodyA with pos := Vec2.add bodyA.pos nudge }
          let bodyB' := if bodyB.fixed then bodyB
            else { bodyB with pos := Vec2.sub bodyB.pos nudge }
          (objs.set iA bodyA').set iB bodyB'
    | _, _ => objs
  | _, _ => objs

/-- solve: a single relaxation pass over all constraints. -/
def solve (constraints : List Constraint) (objs : List SimObject) : List SimObject :=
  constraints.foldl solveConstraint objs

end ConstraintSystem

/-! ### FluidSystem — src/services/physics/FluidSystem.ts -/

def TEX_WIDTH : ℕ := 64

def TEX_HEIGHT : ℕ := 64

/-- The two double-buffered particle grids.  The kernels act pointwise on
cells; the grids are modelled as functions from the cell index.  (The texture's
third and fourth channels are the constants 0 and 1 and are never read by the
kernels, so only x/y are kept.) -/
structure FluidState where
  pos : ℕ → Vec2
  vel : ℕ → Vec2

/-- Seeding at construction: particle i consumes the four random draws
4i..4i+3 in source order (pos.x, pos.y, vel.x, vel.y).  `r` stands for the
stream of Math.random() results, each in [0, 1). -/
def seedFluid (r : ℕ → ℝ) : FluidState where
  pos := fun i => ⟨r (4 * i) * 10 - 5, r (4 * i + 1) * 10 + 5⟩
  vel := fun i => ⟨(r (4 * i + 2) - 0.5) * 2, (r (4 * i + 3) - 0.5) * 2⟩

/-- The velocity kernel (updateVelSource): gravity, floor bounce with damping
and friction, wall reflection. -/
def fluidVelKernel (dt gravity : ℝ) (p v : Vec2) : Vec2 :=
  let vy1 := v.y - gravity * dt
  let vx1 := v.x
  let vx2 := if p.y < 0 then vx1 * 0.95 else vx1
  let vy2 := if p.y < 0 then |vy1| * 0.6 else vy1
  let vx3 := if p.x < -10 ∨ 10 < p.x then vx2 * (-0.8) else vx2
  ⟨vx3, vy2⟩

/-- The position kernel (updatePosSource): advance by the velocity, then clamp
to the floor y = 0 and the walls x = ±10. -/
def fluidPosKernel (dt : ℝ) (p v : Vec2) : Vec2 :=
  let q := Vec2.add p (Vec2.mul v dt)
  let qy := if q.y < 0 then 0 else q.y
  let qx := if q.x < -10 then -10 else q.x
  let qx2 := if 10 < qx then 10 else qx
  ⟨qx2, qy⟩

/-- FluidSystem.step: velocity pass (reading old pos and old vel), ping-pong
swap, then position pass reading old pos and the just-updated velocity. -/
def fluidStep (dt gravity : ℝ) (f : FluidState) : FluidState where
  vel := fun i => fluidVelKernel dt gravity (f.pos i) (f.vel i)
  pos := fun i => fluidPosKernel dt (f.pos i) (fluidVelKernel dt gravity (f.pos i) (f.vel i))

/-- getParticles: read back the position buffer. -/
def getParticles (f : FluidState) : ℕ → Vec2 := f.pos

/-! ### PhysicsEngine — src/services/physicsEngine.ts -/

/-- The engine's scalar/collection fields (everything except the fluid
submodule): objects array, constraint list, clock, event log, the id counter
behind generateId, and the drag target (held by id; the source holds the
object reference). -/
structure CoreState where
  objects : List SimObject
  constraints : List Constraint
  time : ℝ
  logs : List (ℝ × String)
  idCounter : ℕ
  dragged : Option String

structure EngineState where
  core : CoreState
  fluid : FluidState

def subSteps : ℕ := 8

def constraintIterations : ℕ := 5

def shapeName : ShapeType → String
  | .box => "box"
  | .circle => "circle"
  | .plane => "plane"
  | .cloth => "cloth"

/-- log: push a time-tagged line, keeping at most 50 entries (the source
formats the time into the string; we keep the pair). -/
def pushLog (logs : List (ℝ × String)) (t : ℝ) (msg : String) : List (ℝ × String) :=
  let l := logs ++ [(t, msg)]
  if 50 < l.length then l.drop 1 else l

/-- updateGeometry: recompute a box's world vertex cache from pos and angle. -/
def updateGeometry (obj : SimObject) : SimObject :=
  if obj.type = ShapeType.box then
    let hw := obj.width / 2
    let hh := obj.height / 2
    let locals : List Vec2 := [⟨-hw, -hh⟩, ⟨hw, -hh⟩, ⟨hw, hh⟩, ⟨-hw, hh⟩]
    { obj with vertices := locals.map fun p => Vec2.add obj.pos (Vec2.rotate p obj.angle) }
  else obj

/-- add (non-cloth path): derive the body from the config (JS falsy defaults),
canonicalize a plane into a wide fixed box, refresh geometry, append, log.
Returns the new state and the created body (the source returns the object). -/
def addBody (s : CoreState) (type : ShapeType) (config : SimObjectConfig) :
    CoreState × SimObject :=
  let matProps := match config.material with
    | some m => MATERIALS m
    | none => defaultMaterial
  let pos : Vec2 := ⟨jsOr config.x 0, jsOr config.y 0⟩
  let vel : Vec2 := ⟨jsOr config.vx 0, jsOr config.vy 0⟩
  let width := jsOr config.width (if type = ShapeType.box then 1 else 0)
  let height := jsOr config.height (if type = ShapeType.box then 1 else 0)
  let radius := jsOr config.radius (if type = ShapeType.circle then 0.5 else 0)
  let angle := jsOr config.angle 0
  let mass : ℝ := if config.fixed.getD false then 0 else jsOr config.mass 1
  let invMass : ℝ := if mass = 0 then 0 else 1 / mass
  let inertia : ℝ :=
    if 0 < mass then
      if type = ShapeType.box then mass * (width * width + height * height) / 12
      else if type = ShapeType.circle then mass * radius * radius / 2
      else 0
    else 0
  let invInertia : ℝ := if inertia = 0 ∨ config.fixed.getD false then 0 else 1 / inertia
  let newCounter := s.idCounter + 1
  let obj : SimObject :=
    { id := "obj_" ++ toString newCounter, type := type, mass := mass, invMass := invMass,
      inertia := inertia, invInertia := invInertia, pos := pos,
      oldPos := Vec2.sub pos (Vec2.mul vel DT), vel := vel, force := ⟨0, 0⟩,
      angle := angle, oldAngle := angle, restitution := matProps.restitution,
      friction := matProps.friction, width := width, height := height, radius := radius,
      fixed := config.fixed.getD false, color := jsOrS config.color matProps.color,
      vertices := [] }
  let obj := if type = ShapeType.plane then
      { obj with type := ShapeType.box, width := 1000, height := 1, fixed := true,
                 invMass := 0, invInertia := 0,
                 pos := ⟨obj.pos.x, obj.pos.y - 0.5⟩,
                 oldPos := ⟨obj.oldPos.x, obj.pos.y - 0.5⟩ }
    else obj
  let obj := updateGeometry obj
  ({ s with objects := s.objects ++ [obj], idCounter := newCounter,
            logs := pushLog s.logs s.time
              ("Added " ++ shapeName type ++ " [" ++ obj.id ++ "]") }, obj)

structure ConnectConfig where
  length : Option ℝ := none
  stiffness : Option ℝ := none
  color : Option String := none

/-- connect: look both bodies up; if either is missing, silent no-op.
Rest length defaults (JS falsy) to the current distance, stiffness to 0.5. -/
def connect (s : CoreState) (idA idB : String) (config : ConnectConfig) : CoreState :=
  match s.objects.find? (fun o => o.id == idA), s.objects.find? (fun o => o.id == idB) with
  | some objA, some objB =>
    let dist := Vec2.dist objA.pos objB.pos
    let newCounter := s.idCounter + 1
    let constraint : Constraint :=
      { id := "c_obj_" ++ toString newCounter, type := "distance", bodyA := idA, bodyB := idB,
        length := jsOr config.length dist, stiffness := jsOr config.stiffness 0.5,
        color := jsOrS config.color "#3498db" }
    { s with idCounter := newCounter, constraints := s.constraints ++ [constraint] }
  | _, _ => s

def gridGet (g : List (List String)) (y x : ℕ) : String := (g.getD y []).getD x ""

def clothCellConfig (config : SimObjectConfig) (px py : ℝ) (isFixed : Bool) : SimObjectConfig :=
  { mass := some 0.1, material := some MaterialType.cloth, x := some px, y := some py,
    radius := some 0.1, fixed := some isFixed,
    color := some (jsOrS config.color "#e67e22") }

/-- The structural cloth constraint configuration (stiffness 0.8). -/
def clothLink : ConnectConfig := { stiffness := some 0.8, color := some "#d35400" }

/-- One particle of the cloth seeding loop: add one circle, record its id. -/
def clothParticleStep (config : SimObjectConfig) (startX startY dx dy : ℝ) (y : ℕ)
    (acc2 : CoreState × List String) (x : ℕ) : CoreState × List String :=
  let isFixed := config.pinTop.getD false && decide (y = 0)
  let added := addBody acc2.1 ShapeType.circle
    (clothCellConfig config (startX + (x : ℝ) * dx) (startY - (y : ℝ) * dy) isFixed)
  (added.1, acc2.2 ++ [added.2.id])

/-- One row of the cloth seeding loop. -/
def clothRowStep (config : SimObjectConfig) (startX startY dx dy : ℝ) (segX : ℕ)
    (acc : CoreState × List (List String)) (y : ℕ) : CoreState × List (List String) :=
  let rowRes := (List.range (segX + 1)).foldl
    (clothParticleStep config startX startY dx dy y) (acc.1, ([] : List String))
  (rowRes.1, acc.2 ++ [rowRes.2])

/-- One cell of the cloth constraint loop: connect right and down neighbours. -/
def clothConnectStep (grid : List (List String)) (segX segY y : ℕ)
    (st' : CoreState) (x : ℕ) : CoreState :=
  let stA := if x < segX then connect st' (gridGet grid y x) (gridGet grid y (x + 1)) clothLink
    else st'
  if y < segY then connect stA (gridGet grid y x) (gridGet grid (y + 1) x) clothLink
  else stA

/-- One row of the cloth constraint loop. -/
def clothConnectRow (grid : List (List String)) (segX segY : ℕ)
    (st : CoreState) (y : ℕ) : CoreState :=
  (List.range (segX + 1)).foldl (clothConnectStep grid segX segY y) st

/-- addCloth: a (segX+1) × (segY+1) grid of 0.1-radius circle particles
(optionally pinning the top row) joined by structural distance constraints of
stiffness 0.8.  The source's this.add('circle', ...) dispatches to the
non-cloth path, i.e. addBody.  Returns the corner particle as the handle
(the source asserts the map lookup with `!`; the unreachable missing case
falls back to a fresh particle to stay total). -/
def addCloth (s : CoreState) (config : SimObjectConfig) : CoreState × SimObject :=
  let segX := jsOrN config.segmentsX 10
  let segY := jsOrN config.segmentsY 10
  let w := jsOr config.width 4
  let h := jsOr config.height 4
  let startX := jsOr config.x 0 - w / 2
  let startY := jsOr config.y 0 + h / 2
  let dx := w / (segX : ℝ)
  let dy := h / (segY : ℝ)
  let seeded := (List.range (segY + 1)).foldl
    (clothRowStep config startX startY dx dy segX) (s, ([] : List (List String)))
  let s1 := seeded.1
  let grid := seeded.2
  let s2 := (List.range (segY + 1)).foldl (clothConnectRow grid segX segY) s1
  match s2.objects.find? (fun o => o.id == gridGet grid 0 0) with
  | some o => (s2, o)
  | none => (s2, (addBody s ShapeType.circle config).2)

/-- add: dispatch the cloth composite path, otherwise the plain body path. -/
def add (s : CoreState) (type : ShapeType) (config : SimObjectConfig) : CoreState × SimObject :=
  if type = ShapeType.cloth then addCloth s config else addBody s type config

/-- Whether the object is the current drag target (the source compares the
object reference with this.draggedObj; ids are unique). -/
def isDragged (dragged : Option String) (o : SimObject) : Bool :=
  match dragged with
  | some d => o.id == d
  | none => false

/-- applyForces: gravity overwrites force.y, then linear drag is subtracted
from both components (force.x is not re-zeroed here; integrate zeroes it). -/
def applyForces (dragged : Option String) (objs : List SimObject) : List SimObject :=
  objs.map fun obj =>
    if obj.fixed || isDragged dragged obj then obj
    else
      { obj with force := ⟨obj.force.x - obj.vel.x * 0.01,
                           (-GRAVITY * obj.mass) - obj.vel.y * 0.01⟩ }

/-- integrate: position (and angular) Verlet; a dragged body instead has its
old position/angle snapped to the current values. -/
def integrate (dragged : Option String) (dt : ℝ) (objs : List SimObject) : List SimObject :=
  objs.map fun obj =>
    if obj.fixed then obj
    else if isDragged dragged obj then { obj with oldPos := obj.pos, oldAngle := obj.angle }
    else
      let vel := Vec2.sub obj.pos obj.oldPos
      let tempPos := obj.pos
      let acc := Vec2.mul obj.force obj.invMass
      let delta := Vec2.add vel (Vec2.mul acc (dt * dt))
      let newPos := Vec2.add obj.pos delta
      { obj with pos := newPos, oldPos := tempPos,
                 vel := Vec2.div (Vec2.sub newPos tempPos) dt, force := ⟨0, 0⟩,
                 angle := obj.angle + (obj.angle - obj.oldAngle), oldAngle := obj.angle }

/-- One sub-step of step(): forces, Verlet, geometry refresh,
constraintIterations solver passes, collision resolution. -/
def substep (cs : List Constraint) (dragged : Option String) (dt : ℝ)
    (objs : List SimObject) : List SimObject :=
  let o1 := applyForces dragged objs
  let o2 := integrate dragged dt o1
  let o3 := o2.map updateGeometry
  let o4 := (fun os => ConstraintSystem.solve cs os)^[constraintIterations] o3
  CollisionSystem.resolve o4

/-- The CPU part of step(): advance the clock one frame and run the sub-steps. -/
def coreStep (c : CoreState) : CoreState :=
  { c with time := c.time + DT,
           objects := (substep c.constraints c.dragged (DT / (subSteps : ℝ)))^[subSteps]
             c.objects }

/-- step(): fluid pass once per frame, then the sub-stepped rigid pipeline. -/
def engineStep (s : EngineState) : EngineState :=
  { core := coreStep s.core, fluid := fluidStep DT GRAVITY s.fluid }

/-- The state reset() installs (every core field; the fluid is untouched). -/
def initCore : CoreState :=
  { objects := [], constraints := [], time := 0, logs := [], idCounter := 0, dragged := none }

def engineReset (s : EngineState) : EngineState := { s with core := initCore }

/-- The engine right after construction: fluid seeded from the random stream
r, core fields as reset() leaves them. -/
def initEngine (r : ℕ → ℝ) : EngineState := { core := initCore, fluid := seedFluid r }

def engineAdd (s : EngineState) (type : ShapeType) (config : SimObjectConfig) :
    EngineState × SimObject :=
  let res := add s.core type config
  ({ s with core := res.1 }, res.2)

def engineConnect (s : EngineState) (idA idB : String) (config : ConnectConfig) : EngineState :=
  { s with core := connect s.core idA idB config }

/-- startDrag: hit-test newest-to-oldest, skipping fixed bodies; the first
body within its pick radius (+0.5 margin) becomes the drag target; if nothing
is hit the target is left as it was. -/
def startDrag (s : CoreState) (x y : ℝ) : CoreState :=
  let hit := s.objects.reverse.find? fun o =>
    !o.fixed && decide (Vec2.dist ⟨x, y⟩ o.pos <
      (if o.type = ShapeType.circle then o.radius else max o.width o.height / 2) + 0.5)
  match hit with
  | some o => { s with dragged := some o.id }
  | none => s

/-- updateDrag: snap the target's position to the pointer and rewind its old
position by a 0.1 damping factor. -/
def updateDrag (s : CoreState) (x y : ℝ) : CoreState :=
  match s.dragged with
  | none => s
  | some d =>
    match s.objects.findIdx? (fun o => o.id == d) with
    | none => s
    | some i =>
      match s.objects[i]? with
      | none => s
      | some obj =>
        let dx := x - obj.pos.x
        let dy := y - obj.pos.y
        let obj' := { obj with pos := (⟨x, y⟩ : Vec2),
                               oldPos := (⟨x - dx * 0.1, y - dy * 0.1⟩ : Vec2) }
        { s with objects := s.objects.set i obj' }

def endDrag (s : CoreState) : CoreState := { s with dragged := none }

/-! ### Event histories over the public surface -/

inductive Event where
  | add (type : ShapeType) (config : SimObjectConfig)
  | connect (idA idB : String) (config : ConnectConfig)
  | reset
  | step
  | startDrag (x y : ℝ)
  | updateDrag (x y : ℝ)
  | endDrag

def applyEvent (s : EngineState) : Event → EngineState
  | .add t cfg => (engineAdd s t cfg).1
  | .connect a b cfg => engineConnect s a b cfg
  | .reset => engineReset s
  | .step => engineStep s
  | .startDrag x y => { s with core := startDrag s.core x y }
  | .updateDrag x y => { s with core := updateDrag s.core x y }
  | .endDrag => { s with core := endDrag s.core }

def runEvents (es : List Event) (s : EngineState) : EngineState := es.foldl applyEvent s

/-- A scenario-building command: one add() or connect() call. -/
inductive BuildCmd where
  | addCmd (type : ShapeType) (config : SimObjectConfig)
  | connectCmd (idA idB : String) (config : ConnectConfig)

def applyBuild (s : EngineState) : BuildCmd → EngineState
  | .addCmd t cfg => (engineAdd s t cfg).1
  | .connectCmd a b cfg => engineConnect s a b cfg

def runBuild (cmds : List BuildCmd) (s : EngineState) : EngineState := cmds.foldl applyBuild s

def applyBuildCore (c : CoreState) : BuildCmd → CoreState
  | .addCmd t cfg => (add c t cfg).1
  | .connectCmd a b cfg => connect c a b cfg

def runBuildCore (cmds : List BuildCmd) (c : CoreState) : CoreState :=
  cmds.foldl applyBuildCore c

/-! ### Verification helpers and concrete instances -/

/-- The domain invariant of the particle cloud: above the floor, inside the walls. -/
def inDomain (p : Vec2) : Prop := 0 ≤ p.y ∧ -10 ≤ p.x ∧ p.x ≤ 10

def fluidInDomain (f : FluidState) : Prop := ∀ i, inDomain (f.pos i)

/-- A concrete circle body used to instantiate theorems. -/
def mkTestBody (idStr : String) (p : Vec2) (r : ℝ) (fx : Bool) : SimObject where
  id := idStr
  type := ShapeType.circle
  mass := 1
  invMass := if fx then 0 else 1
  inertia := 0
  invInertia := 0
  pos := p
  oldPos := p
  vel := ⟨0, 0⟩
  force := ⟨0, 0⟩
  angle := 0
  oldAngle := 0
  restitution := 0.5
  friction := 0.5
  width := 0
  height := 0
  radius := r
  fixed := fx
  color := "#3498db"
  vertices := []

/-- A concrete axis-aligned box body used to instantiate theorems. -/
def mkTestBox (idStr : String) (p : Vec2) (hw hh : ℝ) : SimObject where
  id := idStr
  type := ShapeType.box
  mass := 1
  invMass := 1
  inertia := 1
  invInertia := 1
  pos := p
  oldPos := p
  vel := ⟨0, 0⟩
  force := ⟨0, 0⟩
  angle := 0
  oldAngle := 0
  restitution := 0.5
  friction := 0.5
  width := 2 * hw
  height := 2 * hh
  radius := 0
  fixed := false
  color := "#3498db"
  vertices := [⟨p.x - hw, p.y - hh⟩, ⟨p.x + hw, p.y - hh⟩, ⟨p.x + hw, p.y + hh⟩,
               ⟨p.x - hw, p.y + hh⟩]

def testManifold : Manifold where
  bodyA := mkTestBody "a" ⟨0, 0⟩ 1 false
  bodyB := mkTestBody "b" ⟨1, 0⟩ 1 false
  normal := ⟨1, 0⟩
  depth := 2
  hasCollision := true

def testPair : List SimObject :=
  [mkTestBody "obj_1" ⟨0, 0⟩ 1 false, mkTestBody "obj_2" ⟨1, 0⟩ 1 false]

def twoBodyCore : CoreState :=
  { objects := testPair, constraints := [], time := 0, logs := [], idCounter := 2,
    dragged := none }

def testConstraint : Constraint :=
  { id := "c_obj_3", type := "distance", bodyA := "obj_1", bodyB := "obj_2", length := 2,
    stiffness := 1, color := "#3498db" }

def halfStream : ℕ → ℝ := fun _ => 1 / 2

/-- The per-constraint displacement of ConstraintSystem.solve: the vector from
A to B scaled by (d - restLength)/d · stiffness · 0.5 (named for the source's
`nudge`). -/
def solveNudge (A B : SimObject) (c : Constraint) : Vec2 :=
  Vec2.mul (Vec2.sub B.pos A.pos)
    ((Vec2.dist A.pos B.pos - c.length) / Vec2.dist A.pos B.pos * (c.stiffness * 0.5))

/-- A pipeline pass keeps list length and, pointwise, every body's identity,
fixed flag, inverse mass and inverse inertia — and never moves a fixed body. -/
def KeepsFixed (f : List SimObject → List SimObject) : Prop :=
  ∀ objs : List SimObject, (f objs).length = objs.length ∧
    ∀ (i : ℕ) (o : SimObject), objs[i]? = some o → ∃ o', (f objs)[i]? = some o' ∧
      o'.id = o.id ∧ o'.fixed = o.fixed ∧ o'.invMass = o.invMass ∧
      o'.invInertia = o.invInertia ∧ (o.fixed = true → o'.pos = o.pos)

/-- The engine invariant on a body list: fixed bodies have invMass and
invInertia zero. -/
def goodInv (objs : List SimObject) : Prop :=
  ∀ o ∈ objs, o.fixed = true → o.invMass = 0 ∧ o.invInertia = 0

/-- A fixed-box scenario used to instantiate theorems. -/
def cfgFixedW : SimObjectConfig := { fixed := some true }

def esW : List Event := [Event.add ShapeType.box cfgFixedW]

def oW : SimObject := (add initCore ShapeType.box cfgFixedW).2

/-! ### Vec2 lemmas -/

theorem Vec2.mul_mul (v : Vec2) (a b : ℝ) : Vec2.mul (Vec2.mul v a) b = Vec2.mul v (a * b) := by
  simp [Vec2.mul, mul_assoc]

theorem Vec2.len_mul (v : Vec2) (s : ℝ) : Vec2.len (Vec2.mul v s) = |s| * Vec2.len v := by
  unfold Vec2.len Vec2.mul
  dsimp only
  rw [show v.x * s * (v.x * s) + v.y * s * (v.y * s) = s ^ 2 * (v.x * v.x + v.y * v.y) by ring]
  rw [Real.sqrt_mul (sq_nonneg s), Real.sqrt_sq_eq_abs]

theorem Vec2.lenSq_nonneg (v : Vec2) : 0 ≤ Vec2.lenSq v :=
  add_nonneg (mul_self_nonneg v.x) (mul_self_nonneg v.y)

theorem Vec2.dist_eq_sqrt_lenSq (a b : Vec2) :
    Vec2.dist a b = Real.sqrt (Vec2.lenSq (Vec2.sub b a)) := by
  unfold Vec2.dist Vec2.lenSq Vec2.sub
  dsimp only
  congr 1
  ring

theorem Vec2.dist_self_eq_zero (a : Vec2) : Vec2.dist a a = 0 := by
  unfold Vec2.dist
  simp

/-! ### updateGeometry projection lemmas (only the vertex cache changes) -/

theorem updateGeometry_id (o : SimObject) : (updateGeometry o).id = o.id := by
  unfold updateGeometry; split <;> rfl

theorem updateGeometry_type (o : SimObject) : (updateGeometry o).type = o.type := by
  unfold updateGeometry; split <;> rfl

theorem updateGeometry_mass (o : SimObject) : (updateGeometry o).mass = o.mass := by
  unfold updateGeometry; split <;> rfl

theorem updateGeometry_invMass (o : SimObject) : (updateGeometry o).invMass = o.invMass := by
  unfold updateGeometry; split <;> rfl

theorem updateGeometry_inertia (o : SimObject) : (updateGeometry o).inertia = o.inertia := by
  unfold updateGeometry; split <;> rfl

theorem updateGeometry_invInertia (o : SimObject) :
    (updateGeometry o).invInertia = o.invInertia := by
  unfold updateGeometry; split <;> rfl

theorem updateGeometry_pos (o : SimObject) : (updateGeometry o).pos = o.pos := by
  unfold updateGeometry; split <;> rfl

theorem updateGeometry_oldPos (o : SimObject) : (updateGeometry o).oldPos = o.oldPos := by
  unfold updateGeometry; split <;> rfl

theorem updateGeometry_vel (o : SimObject) : (updateGeometry o).vel = o.vel := by
  unfold updateGeometry; split <;> rfl

theorem updateGeometry_fixed (o : SimObject) : (updateGeometry o).fixed = o.fixed := by
  unfold updateGeometry; split <;> rfl

theorem updateGeometry_width (o : SimObject) : (updateGeometry o).width = o.width := by
  unfold updateGeometry; split <;> rfl

theorem updateGeometry_height (o : SimObject) : (updateGeometry o).height = o.height := by
  unfold updateGeometry; split <;> rfl

theorem updateGeometry_radius (o : SimObject) : (updateGeometry o).radius = o.radius := by
  unfold updateGeometry; split <;> rfl

/-! ### C7 — connect with a missing body id is a silent no-op -/

theorem connect_noop (c : CoreState) (idA idB : String) (cfg : ConnectConfig)
    (h : c.objects.find? (fun o => o.id == idA) = none ∨
      c.objects.find? (fun o => o.id == idB) = none) :
    connect c idA idB cfg = c := by
  unfold connect
  rcases hA : c.objects.find? (fun o => o.id == idA) with _ | a <;>
    rcases hB : c.objects.find? (fun o => o.id == idB) with _ | b <;>
    rw [hA, hB] <;> try rfl
  · exfalso
    rcases h with h | h
    · rw [hA] at h; cases h
    · rw [hB] at h; cases h

/-- C7: a connect(idA, idB, config) call where either identifier is missing
from the body registry raises no error and leaves the whole engine state
(bodies, constraints, everything else) exactly unchanged. -/
theorem C7_connect_missing_noop (s : EngineState) (idA idB : String) (cfg : ConnectConfig)
    (h : s.core.objects.find? (fun o => o.id == idA) = none ∨
      s.core.objects.find? (fun o => o.id == idB) = none) :
    engineConnect s idA idB cfg = s := by
  unfold engineConnect
  rw [connect_noop s.core idA idB cfg h]

theorem C7_connect_missing_noop_witness :
    engineConnect (initEngine halfStream) "obj_1" "obj_2" {} = initEngine halfStream :=
  C7_connect_missing_noop (initEngine halfStream) "obj_1" "obj_2" {} (Or.inl rfl)

/-! ### C8 — reset + replay determinism -/

theorem applyBuild_core_eq (s : EngineState) (c : BuildCmd) :
    (applyBuild s c).core = applyBuildCore s.core c := by
  cases c <;> rfl

theorem runBuild_core_eq (cmds : List BuildCmd) (s : EngineState) :
    (runBuild cmds s).core = runBuildCore cmds s.core := by
  induction cmds generalizing s with
  | nil => rfl
  | cons c cs ih =>
    show (runBuild cs (applyBuild s c)).core = runBuildCore cs (applyBuildCore s.core c)
    rw [ih, applyBuild_core_eq]

/-- C8: after reset(), replaying one fixed sequence of add/connect calls
produces the same body count, the same body identifiers, and identical initial
positions and velocities, regardless of what engine state preceded the reset:
scenario construction is deterministic. -/
theorem C8_reset_replay_deterministic (a b : EngineState) (cmds : List BuildCmd) :
    (runBuild cmds (engineReset a)).core.objects.length =
      (runBuild cmds (engineReset b)).core.objects.length ∧
    (runBuild cmds (engineReset a)).core.objects.map (fun o => o.id) =
      (runBuild cmds (engineReset b)).core.objects.map (fun o => o.id) ∧
    (runBuild cmds (engineReset a)).core.objects.map (fun o => o.pos) =
      (runBuild cmds (engineReset b)).core.objects.map (fun o => o.pos) ∧
    (runBuild cmds (engineReset a)).core.objects.map (fun o => o.vel) =
      (runBuild cmds (engineReset b)).core.objects.map (fun o => o.vel) := by
  have ha : (runBuild cmds (engineReset a)).core = runBuildCore cmds initCore :=
    runBuild_core_eq cmds (engineReset a)
  have hb : (runBuild cmds (engineReset b)).core = runBuildCore cmds initCore :=
    runBuild_core_eq cmds (engineReset b)
  rw [ha, hb]
  exact ⟨rfl, rfl, rfl, rfl⟩

/-! ### C9 — fluid particles stay in the domain -/

theorem fluidPosKernel_inDomain (dt : ℝ) (p v : Vec2) : inDomain (fluidPosKernel dt p v) := by
  unfold fluidPosKernel inDomain
  dsimp only
  refine ⟨?_, ?_, ?_⟩ <;> split_ifs <;> (try simp_all only [not_lt, not_or]) <;> linarith

theorem fluidStep_inDomain (dt g : ℝ) (f : FluidState) : fluidInDomain (fluidStep dt g f) :=
  fun i => fluidPosKernel_inDomain dt (f.pos i) (fluidVelKernel dt g (f.pos i) (f.vel i))

theorem seedFluid_inDomain (r : ℕ → ℝ) (hr : ∀ i, 0 ≤ r i ∧ r i < 1) :
    fluidInDomain (seedFluid r) := by
  intro i
  unfold seedFluid inDomain
  dsimp only
  obtain ⟨h1, h2⟩ := hr (4 * i)
  obtain ⟨h3, h4⟩ := hr (4 * i + 1)
  refine ⟨by linarith, by linarith, by linarith⟩

theorem applyEvent_fluid (s : EngineState) (e : Event) :
    (applyEvent s e).fluid = s.fluid ∨ (applyEvent s e).fluid = fluidStep DT GRAVITY s.fluid := by
  cases e <;> simp [applyEvent, engineAdd, engineConnect, engineReset, engineStep]

theorem runEvents_fluidInDomain (es : List Event) :
    ∀ s : EngineState, fluidInDomain s.fluid → fluidInDomain (runEvents es s).fluid := by
  induction es with
  | nil => intro s h; exact h
  | cons e es ih =>
    intro s h
    show fluidInDomain (runEvents es (applyEvent s e)).fluid
    apply ih
    rcases applyEvent_fluid s e with he | he
    · rw [he]; exact h
    · rw [he]; exact fluidStep_inDomain _ _ _

/-- C9: for every particle of the fluid cloud and every number of step() calls
(indeed after any event history, since only step() touches the fluid), the
position read back from the position buffer satisfies y ≥ 0 and
-10 ≤ x ≤ 10: seeding places every particle inside the domain and the
position pass clamps every written position to the floor and walls. -/
theorem C9_fluid_in_domain (r : ℕ → ℝ) (hr : ∀ i, 0 ≤ r i ∧ r i < 1) (es : List Event)
    (i : ℕ) :
    0 ≤ (getParticles (runEvents es (initEngine r)).fluid i).y ∧
    -10 ≤ (getParticles (runEvents es (initEngine r)).fluid i).x ∧
    (getParticles (runEvents es (initEngine r)).fluid i).x ≤ 10 :=
  runEvents_fluidInDomain es (initEngine r) (seedFluid_inDomain r hr) i

theorem C9_fluid_in_domain_witness :
    0 ≤ (getParticles (runEvents [Event.step] (initEngine halfStream)).fluid 0).y ∧
    -10 ≤ (getParticles (runEvents [Event.step] (initEngine halfStream)).fluid 0).x ∧
    (getParticles (runEvents [Event.step] (initEngine halfStream)).fluid 0).x ≤ 10 :=
  C9_fluid_in_domain halfStream (fun i => ⟨by norm_num [halfStream], by norm_num [halfStream]⟩)
    [Event.step] 0

/-! ### C10 — circle vs circle detection -/

/-- C10: for circle bodies (nonnegative radii), circleVsCircle reports no
collision exactly when the center distance exceeds the radius sum; otherwise
it returns a manifold with a unit normal in the direction between the centers
and depth = radiusA + radiusB - distance, and in the degenerate concentric
case it returns the fixed unit normal (1, 0) with the full radius sum as
depth instead of failing. -/
theorem C10_circle_vs_circle (A B : SimObject) (hA : 0 ≤ A.radius) (hB : 0 ≤ B.radius) :
    (A.radius + B.radius < Vec2.dist A.pos B.pos →
      (CollisionSystem.circleVsCircle A B).hasCollision = false) ∧
    (Vec2.dist A.pos B.pos ≤ A.radius + B.radius →
      (CollisionSystem.circleVsCircle A B).hasCollision = true ∧
      (CollisionSystem.circleVsCircle A B).depth =
        A.radius + B.radius - Vec2.dist A.pos B.pos ∧
      Vec2.len (CollisionSystem.circleVsCircle A B).normal = 1 ∧
      (Vec2.dist A.pos B.pos ≠ 0 →
        (CollisionSystem.circleVsCircle A B).normal =
          Vec2.div (Vec2.sub B.pos A.pos) (Vec2.dist A.pos B.pos)) ∧
      (Vec2.dist A.pos B.pos = 0 →
        (CollisionSystem.circleVsCircle A B).normal = ⟨1, 0⟩)) := by
  have hrs : (0 : ℝ) ≤ A.radius + B.radius := by linarith
  have hds : 0 ≤ Vec2.lenSq (Vec2.sub B.pos A.pos) := Vec2.lenSq_nonneg _
  have hdist : Vec2.dist A.pos B.pos = Real.sqrt (Vec2.lenSq (Vec2.sub B.pos A.pos)) :=
    Vec2.dist_eq_sqrt_lenSq A.pos B.pos
  have hdnn : 0 ≤ Vec2.dist A.pos B.pos := by rw [hdist]; exact Real.sqrt_nonneg _
  have hsq : Vec2.dist A.pos B.pos * Vec2.dist A.pos B.pos =
      Vec2.lenSq (Vec2.sub B.pos A.pos) := by
    rw [hdist]; exact Real.mul_self_sqrt hds
  unfold CollisionSystem.circleVsCircle
  by_cases hover : (A.radius + B.radius) * (A.radius + B.radius) <
      Vec2.lenSq (Vec2.sub B.pos A.pos)
  · rw [if_pos hover]
    constructor
    · intro _; rfl
    · intro hle
      exfalso
      nlinarith
  · rw [if_neg hover]
    push_neg at hover
    have hdle : Vec2.dist A.pos B.pos ≤ A.radius + B.radius := by nlinarith
    constructor
    · intro hgt; exfalso; linarith
    · intro _
      by_cases hz : Real.sqrt (Vec2.lenSq (Vec2.sub B.pos A.pos)) = 0
      · rw [if_pos hz]
        have hz' : Vec2.dist A.pos B.pos = 0 := by rw [hdist]; exact hz
        refine ⟨rfl, by rw [hz']; ring_nf, ?_, ?_, fun _ => rfl⟩
        · unfold Vec2.len
          dsimp only
          norm_num
        · intro hne; exact absurd hz' hne
      · rw [if_neg hz]
        have hz' : Vec2.dist A.pos B.pos ≠ 0 := by rw [hdist]; exact hz
        have hpos : 0 < Vec2.dist A.pos B.pos := lt_of_le_of_ne hdnn (Ne.symm hz')
        refine ⟨rfl, by rw [hdist], ?_, fun _ => by rw [hdist], fun h0 => absurd h0 hz'⟩
        have : Vec2.div (Vec2.sub B.pos A.pos) (Real.sqrt (Vec2.lenSq (Vec2.sub B.pos A.pos)))
            = Vec2.mul (Vec2.sub B.pos A.pos) (1 / Vec2.dist A.pos B.pos) := by
          rw [← hdist]
          unfold Vec2.div Vec2.mul
          simp [div_eq_mul_inv]
        rw [this, Vec2.len_mul]
        rw [abs_of_pos (by positivity : (0:ℝ) < 1 / Vec2.dist A.pos B.pos)]
        have hlen : Vec2.len (Vec2.sub B.pos A.pos) = Vec2.dist A.pos B.pos := by
          unfold Vec2.len
          rw [hdist]
          rfl
        field_simp [hlen]

theorem C10_circle_vs_circle_witness :
    ((mkTestBody "a" ⟨0, 0⟩ 1 false).radius + (mkTestBody "b" ⟨1, 0⟩ 1 false).radius <
        Vec2.dist (mkTestBody "a" ⟨0, 0⟩ 1 false).pos (mkTestBody "b" ⟨1, 0⟩ 1 false).pos →
      (CollisionSystem.circleVsCircle (mkTestBody "a" ⟨0, 0⟩ 1 false)
        (mkTestBody "b" ⟨1, 0⟩ 1 false)).hasCollision = false) ∧
    (Vec2.dist (mkTestBody "a" ⟨0, 0⟩ 1 false).pos (mkTestBody "b" ⟨1, 0⟩ 1 false).pos ≤
        (mkTestBody "a" ⟨0, 0⟩ 1 false).radius + (mkTestBody "b" ⟨1, 0⟩ 1 false).radius →
      (CollisionSystem.circleVsCircle (mkTestBody "a" ⟨0, 0⟩ 1 false)
        (mkTestBody "b" ⟨1, 0⟩ 1 false)).hasCollision = true ∧
      (CollisionSystem.circleVsCircle (mkTestBody "a" ⟨0, 0⟩ 1 false)
        (mkTestBody "b" ⟨1, 0⟩ 1 false)).depth =
        (mkTestBody "a" ⟨0, 0⟩ 1 false).radius + (mkTestBody "b" ⟨1, 0⟩ 1 false).radius -
          Vec2.dist (mkTestBody "a" ⟨0, 0⟩ 1 false).pos (mkTestBody "b" ⟨1, 0⟩ 1 false).pos ∧
      Vec2.len (CollisionSystem.circleVsCircle (mkTestBody "a" ⟨0, 0⟩ 1 false)
        (mkTestBody "b" ⟨1, 0⟩ 1 false)).normal = 1 ∧
      (Vec2.dist (mkTestBody "a" ⟨0, 0⟩ 1 false).pos (mkTestBody "b" ⟨1, 0⟩ 1 false).pos ≠ 0 →
        (CollisionSystem.circleVsCircle (mkTestBody "a" ⟨0, 0⟩ 1 false)
          (mkTestBody "b" ⟨1, 0⟩ 1 false)).normal =
          Vec2.div (Vec2.sub (mkTestBody "b" ⟨1, 0⟩ 1 false).pos
            (mkTestBody "a" ⟨0, 0⟩ 1 false).pos)
            (Vec2.dist (mkTestBody "a" ⟨0, 0⟩ 1 false).pos
              (mkTestBody "b" ⟨1, 0⟩ 1 false).pos)) ∧
      (Vec2.dist (mkTestBody "a" ⟨0, 0⟩ 1 false).pos (mkTestBody "b" ⟨1, 0⟩ 1 false).pos = 0 →
        (CollisionSystem.circleVsCircle (mkTestBody "a" ⟨0, 0⟩ 1 false)
          (mkTestBody "b" ⟨1, 0⟩ 1 false)).normal = ⟨1, 0⟩)) :=
  C10_circle_vs_circle (mkTestBody "a" ⟨0, 0⟩ 1 false) (mkTestBody "b" ⟨1, 0⟩ 1 false)
    (by norm_num [mkTestBody]) (by norm_num [mkTestBody])

/-! ### C2 — resolution displacement shares -/

/-- C2: for a manifold passed to resolution (with the engine's invariants:
nonnegative inverse masses, zero for fixed bodies, a unit normal and a
nonnegative depth): when invMassA + invMassB = 0 both bodies are returned
completely untouched; otherwise each non-fixed body's position is displaced
along the normal by depth times its own invMass share — body A against the
normal, body B along it — and the two displacement magnitudes sum to the full
penetration depth. -/
theorem C2_resolution_shares (m : Manifold)
    (hfa : m.bodyA.fixed = true → m.bodyA.invMass = 0)
    (hfb : m.bodyB.fixed = true → m.bodyB.invMass = 0)
    (hia : 0 ≤ m.bodyA.invMass) (hib : 0 ≤ m.bodyB.invMass)
    (hn : Vec2.len m.normal = 1) (hd : 0 ≤ m.depth) :
    (m.bodyA.invMass + m.bodyB.invMass = 0 →
      CollisionSystem.applyResolution m = (m.bodyA, m.bodyB)) ∧
    (m.bodyA.invMass + m.bodyB.invMass ≠ 0 →
      ((CollisionSystem.applyResolution m).1.pos =
        if m.bodyA.fixed then m.bodyA.pos
        else Vec2.add m.bodyA.pos (Vec2.mul m.normal
          (-(m.bodyA.invMass / (m.bodyA.invMass + m.bodyB.invMass)) * m.depth))) ∧
      ((CollisionSystem.applyResolution m).2.pos =
        if m.bodyB.fixed then m.bodyB.pos
        else Vec2.add m.bodyB.pos (Vec2.mul m.normal
          (m.bodyB.invMass / (m.bodyA.invMass + m.bodyB.invMass) * m.depth))) ∧
      Vec2.len (Vec2.mul m.normal
          (-(m.bodyA.invMass / (m.bodyA.invMass + m.bodyB.invMass)) * m.depth)) +
        Vec2.len (Vec2.mul m.normal
          (m.bodyB.invMass / (m.bodyA.invMass + m.bodyB.invMass) * m.depth)) = m.depth) := by
  constructor
  · intro hsum
    unfold CollisionSystem.applyResolution
    rw [if_pos hsum]
  · intro hsum
    have hsumpos : 0 < m.bodyA.invMass + m.bodyB.invMass :=
      lt_of_le_of_ne (by linarith) (Ne.symm hsum)
    have hshareA : Vec2.mul (Vec2.mul m.normal m.depth)
        (-m.bodyA.invMass / (m.bodyA.invMass + m.bodyB.invMass)) =
        Vec2.mul m.normal
          (-(m.bodyA.invMass / (m.bodyA.invMass + m.bodyB.invMass)) * m.depth) := by
      rw [Vec2.mul_mul]
      congr 1
      ring
    have hshareB : Vec2.mul (Vec2.mul m.normal m.depth)
        (m.bodyB.invMass / (m.bodyA.invMass + m.bodyB.invMass)) =
        Vec2.mul m.normal
          (m.bodyB.invMass / (m.bodyA.invMass + m.bodyB.invMass) * m.depth) := by
      rw [Vec2.mul_mul]
      congr 1
      ring
    refine ⟨?_, ?_, ?_⟩
    · unfold CollisionSystem.applyResolution
      rw [if_neg hsum]
      dsimp only
      rw [hshareA]
      by_cases hfA : m.bodyA.fixed <;> by_cases hfB : m.bodyB.fixed <;>
        simp [hfA, hfB]
    · unfold CollisionSystem.applyResolution
      rw [if_neg hsum]
      dsimp only
      rw [hshareB]
      by_cases hfA : m.bodyA.fixed <;> by_cases hfB : m.bodyB.fixed <;>
        simp [hfA, hfB]
    · rw [Vec2.len_mul, Vec2.len_mul, hn, mul_one, mul_one]
      have hshA : (0:ℝ) ≤ m.bodyA.invMass / (m.bodyA.invMass + m.bodyB.invMass) * m.depth :=
        mul_nonneg (div_nonneg hia (le_of_lt hsumpos)) hd
      have hshB : (0:ℝ) ≤ m.bodyB.invMass / (m.bodyA.invMass + m.bodyB.invMass) * m.depth :=
        mul_nonneg (div_nonneg hib (le_of_lt hsumpos)) hd
      have haA : |(-(m.bodyA.invMass / (m.bodyA.invMass + m.bodyB.invMass)) * m.depth)| =
          m.bodyA.invMass / (m.bodyA.invMass + m.bodyB.invMass) * m.depth := by
        rw [show (-(m.bodyA.invMass / (m.bodyA.invMass + m.bodyB.invMass)) * m.depth) =
          -(m.bodyA.invMass / (m.bodyA.invMass + m.bodyB.invMass) * m.depth) by ring,
          abs_neg, abs_of_nonneg hshA]
      have haB : |m.bodyB.invMass / (m.bodyA.invMass + m.bodyB.invMass) * m.depth| =
          m.bodyB.invMass / (m.bodyA.invMass + m.bodyB.invMass) * m.depth :=
        abs_of_nonneg hshB
      rw [haA, haB]
      field_simp
      ring

theorem C2_resolution_shares_witness :
    (testManifold.bodyA.invMass + testManifold.bodyB.invMass = 0 →
      CollisionSystem.applyResolution testManifold = (testManifold.bodyA, testManifold.bodyB)) ∧
    (testManifold.bodyA.invMass + testManifold.bodyB.invMass ≠ 0 →
      ((CollisionSystem.applyResolution testManifold).1.pos =
        if testManifold.bodyA.fixed then testManifold.bodyA.pos
        else Vec2.add testManifold.bodyA.pos (Vec2.mul testManifold.normal
          (-(testManifold.bodyA.invMass /
            (testManifold.bodyA.invMass + testManifold.bodyB.invMass)) *
              testManifold.depth))) ∧
      ((CollisionSystem.applyResolution testManifold).2.pos =
        if testManifold.bodyB.fixed then testManifold.bodyB.pos
        else Vec2.add testManifold.bodyB.pos (Vec2.mul testManifold.normal
          (testManifold.bodyB.invMass /
            (testManifold.bodyA.invMass + testManifold.bodyB.invMass) *
              testManifold.depth))) ∧
      Vec2.len (Vec2.mul testManifold.normal
          (-(testManifold.bodyA.invMass /
            (testManifold.bodyA.invMass + testManifold.bodyB.invMass)) *
              testManifold.depth)) +
        Vec2.len (Vec2.mul testManifold.normal
          (testManifold.bodyB.invMass /
            (testManifold.bodyA.invMass + testManifold.bodyB.invMass) *
              testManifold.depth)) = testManifold.depth) :=
  C2_resolution_shares testManifold
    (by simp [testManifold, mkTestBody]) (by simp [testManifold, mkTestBody])
    (by norm_num [testManifold, mkTestBody]) (by norm_num [testManifold, mkTestBody])
    (by simp [testManifold, Vec2.len]) (by norm_num [testManifold])

/-! ### C5 — derived mass properties of add() -/

/-- C5 counterexample: add('box', { mass: 0 }) on a non-fixed body produces
mass 1, not the supplied mass 0 — JavaScript's `config.mass || 1` treats a
specified mass of 0 as unspecified.  This refutes the claim's clause
"otherwise config.mass". -/
theorem C5_counterexample :
    (add initCore ShapeType.box { mass := some (0 : ℝ) }).2.mass = 1 ∧
    ¬((add initCore ShapeType.box { mass := some (0 : ℝ) }).2.mass = 0) := by
  have h : (add initCore ShapeType.box { mass := some (0 : ℝ) }).2.mass = 1 := by
    unfold add addBody
    rw [if_neg (by decide : ¬(ShapeType.box = ShapeType.cloth))]
    dsimp only
    rw [if_neg (by decide : ¬(ShapeType.box = ShapeType.plane))]
    rw [updateGeometry_mass]
    simp [jsOr]
  exact ⟨h, by rw [h]; norm_num⟩

theorem addBody_mass_eq (s : CoreState) (k : ShapeType) (cfg : SimObjectConfig)
    (hk : k ≠ ShapeType.plane) :
    (addBody s k cfg).2.mass = if cfg.fixed.getD false then 0 else jsOr cfg.mass 1 := by
  unfold addBody
  dsimp only
  rw [if_neg hk, updateGeometry_mass]

theorem addBody_invMass_eq (s : CoreState) (k : ShapeType) (cfg : SimObjectConfig)
    (hk : k ≠ ShapeType.plane) :
    (addBody s k cfg).2.invMass =
      if (addBody s k cfg).2.mass = 0 then 0 else 1 / (addBody s k cfg).2.mass := by
  rw [addBody_mass_eq s k cfg hk]
  unfold addBody
  dsimp only
  rw [if_neg hk, updateGeometry_invMass]

theorem addBody_fixed_eq (s : CoreState) (k : ShapeType) (cfg : SimObjectConfig)
    (hk : k ≠ ShapeType.plane) :
    (addBody s k cfg).2.fixed = cfg.fixed.getD false := by
  unfold addBody
  dsimp only
  rw [if_neg hk, updateGeometry_fixed]

theorem addBody_width_eq (s : CoreState) (k : ShapeType) (cfg : SimObjectConfig)
    (hk : k ≠ ShapeType.plane) :
    (addBody s k cfg).2.width = jsOr cfg.width (if k = ShapeType.box then 1 else 0) := by
  unfold addBody
  dsimp only
  rw [if_neg hk, updateGeometry_width]

theorem addBody_height_eq (s : CoreState) (k : ShapeType) (cfg : SimObjectConfig)
    (hk : k ≠ ShapeType.plane) :
    (addBody s k cfg).2.height = jsOr cfg.height (if k = ShapeType.box then 1 else 0) := by
  unfold addBody
  dsimp only
  rw [if_neg hk, updateGeometry_height]

theorem addBody_radius_eq (s : CoreState) (k : ShapeType) (cfg : SimObjectConfig)
    (hk : k ≠ ShapeType.plane) :
    (addBody s k cfg).2.radius = jsOr cfg.radius (if k = ShapeType.circle then 0.5 else 0) := by
  unfold addBody
  dsimp only
  rw [if_neg hk, updateGeometry_radius]

theorem addBody_inertia_eq (s : CoreState) (k : ShapeType) (cfg : SimObjectConfig)
    (hk : k ≠ ShapeType.plane) :
    (addBody s k cfg).2.inertia =
      if 0 < (addBody s k cfg).2.mass then
        if k = ShapeType.box then
          (addBody s k cfg).2.mass *
            ((addBody s k cfg).2.width * (addBody s k cfg).2.width +
              (addBody s k cfg).2.height * (addBody s k cfg).2.height) / 12
        else if k = ShapeType.circle then
          (addBody s k cfg).2.mass * (addBody s k cfg).2.radius * (addBody s k cfg).2.radius / 2
        else 0
      else 0 := by
  rw [addBody_mass_eq s k cfg hk, addBody_width_eq s k cfg hk, addBody_height_eq s k cfg hk,
    addBody_radius_eq s k cfg hk]
  unfold addBody
  dsimp only
  rw [if_neg hk, updateGeometry_inertia]

theorem addBody_invInertia_eq (s : CoreState) (k : ShapeType) (cfg : SimObjectConfig)
    (hk : k ≠ ShapeType.plane) :
    (addBody s k cfg).2.invInertia =
      if (addBody s k cfg).2.inertia = 0 ∨ cfg.fixed.getD false then 0
      else 1 / (addBody s k cfg).2.inertia := by
  unfold addBody
  dsimp only
  rw [if_neg hk, updateGeometry_invInertia, updateGeometry_inertia]

/-- C5 (amended): for add(kind, config) with kind box or circle and a config
whose mass is unspecified or positive: mass is 0 when fixed, otherwise the
supplied mass (a supplied mass of 0 is treated like an unspecified one and
defaults to 1); invMass = 0 iff mass = 0 or fixed, else 1/mass; inertia
follows mass·(w²+h²)/12 for a box and mass·r²/2 for a circle; and
invInertia = 0 iff inertia is 0 or fixed, else 1/inertia. -/
theorem C5_amended_mass_properties (s : CoreState) (k : ShapeType) (cfg : SimObjectConfig)
    (hk : k = ShapeType.box ∨ k = ShapeType.circle)
    (hm : cfg.mass = none ∨ ∃ mv, cfg.mass = some mv ∧ 0 < mv) :
    (cfg.fixed.getD false = true → (add s k cfg).2.mass = 0) ∧
    (cfg.fixed.getD false = false →
      (∀ mv, cfg.mass = some mv → (add s k cfg).2.mass = mv) ∧
      (cfg.mass = none → (add s k cfg).2.mass = 1)) ∧
    ((add s k cfg).2.invMass = 0 ↔ ((add s k cfg).2.mass = 0 ∨ (add s k cfg).2.fixed = true)) ∧
    (¬((add s k cfg).2.mass = 0) → (add s k cfg).2.invMass = 1 / (add s k cfg).2.mass) ∧
    (k = ShapeType.box → (add s k cfg).2.inertia =
      (add s k cfg).2.mass * ((add s k cfg).2.width ^ 2 + (add s k cfg).2.height ^ 2) / 12) ∧
    (k = ShapeType.circle → (add s k cfg).2.inertia =
      (add s k cfg).2.mass * (add s k cfg).2.radius ^ 2 / 2) ∧
    ((add s k cfg).2.invInertia = 0 ↔
      ((add s k cfg).2.inertia = 0 ∨ (add s k cfg).2.fixed = true)) ∧
    (¬((add s k cfg).2.inertia = 0 ∨ (add s k cfg).2.fixed = true) →
      (add s k cfg).2.invInertia = 1 / (add s k cfg).2.inertia) := by
  have hkp : k ≠ ShapeType.plane := by rcases hk with rfl | rfl <;> decide
  have hkc : k ≠ ShapeType.cloth := by rcases hk with rfl | rfl <;> decide
  have hadd : add s k cfg = addBody s k cfg := by unfold add; rw [if_neg hkc]
  rw [hadd]
  have hmassg : jsOr cfg.mass 1 ≠ 0 ∧ 0 < jsOr cfg.mass 1 ∧
      (∀ mv, cfg.mass = some mv → jsOr cfg.mass 1 = mv) := by
    rcases hm with hm | ⟨mv, hm, hmv⟩
    · refine ⟨?_, ?_, ?_⟩
      · rw [hm]; show (1:ℝ) ≠ 0; norm_num
      · rw [hm]; show (0:ℝ) < 1; norm_num
      · intro mw hmw
        rw [hm] at hmw
        cases hmw
    · have hj : jsOr cfg.mass 1 = mv := by
        rw [hm]
        show (if mv = 0 then (1:ℝ) else mv) = mv
        rw [if_neg (ne_of_gt hmv)]
      refine ⟨by rw [hj]; exact ne_of_gt hmv, by rw [hj]; exact hmv, ?_⟩
      intro mw hmw
      rw [hm] at hmw
      injection hmw with h
      rw [hj, h]
  obtain ⟨hne, hpos, hval⟩ := hmassg
  have hmass := addBody_mass_eq s k cfg hkp
  have hinvm := addBody_invMass_eq s k cfg hkp
  have hfix := addBody_fixed_eq s k cfg hkp
  have hin := addBody_inertia_eq s k cfg hkp
  have hinvin := addBody_invInertia_eq s k cfg hkp
  cases hfx : cfg.fixed.getD false with
  | true =>
    rw [hfx] at hmass hfix hinvin
    rw [if_pos rfl] at hmass
    have hm0 : (addBody s k cfg).2.mass = 0 := hmass
    have hiz : (addBody s k cfg).2.inertia = 0 := by
      rw [hin, hm0]
      rw [if_neg (by norm_num)]
    have hinvm0 : (addBody s k cfg).2.invMass = 0 := by rw [hinvm, if_pos hm0]
    have hinvi0 : (addBody s k cfg).2.invInertia = 0 := by
      rw [hinvin, if_pos (Or.inr rfl)]
    refine ⟨fun _ => hm0, ?_, ?_, ?_, ?_, ?_, ?_, ?_⟩
    · intro h; cases h
    · rw [hinvm0, hm0]; simp
    · intro h; exact absurd hm0 h
    · intro _; rw [hiz, hm0]; ring
    · intro _; rw [hiz, hm0]; ring
    · rw [hinvi0, hiz]; simp
    · intro h; exact absurd (Or.inl hiz) h
  | false =>
    rw [hfx] at hmass hfix hinvin
    rw [if_neg (by simp)] at hmass
    have hm0 : (addBody s k cfg).2.mass = jsOr cfg.mass 1 := hmass
    have hmne : (addBody s k cfg).2.mass ≠ 0 := by rw [hm0]; exact hne
    have hmpos : 0 < (addBody s k cfg).2.mass := by rw [hm0]; exact hpos
    have hform : (addBody s k cfg).2.inertia =
        if k = ShapeType.box then
          (addBody s k cfg).2.mass *
            ((addBody s k cfg).2.width * (addBody s k cfg).2.width +
              (addBody s k cfg).2.height * (addBody s k cfg).2.height) / 12
        else if k = ShapeType.circle then
          (addBody s k cfg).2.mass * (addBody s k cfg).2.radius * (addBody s k cfg).2.radius / 2
        else 0 := by
      rw [hin, if_pos hmpos]
    refine ⟨?_, ?_, ?_, ?_, ?_, ?_, ?_, ?_⟩
    · intro h; cases h
    · intro _
      exact ⟨fun mv hmv' => by rw [hm0]; exact hval mv hmv', fun hnone => by
        rw [hm0, hnone]; norm_num [jsOr]⟩
    · rw [hinvm, if_neg hmne, hfix]
      constructor
      · intro h; exact absurd h (one_div_ne_zero hmne)
      · intro h
        rcases h with h | h
        · exact absurd h hmne
        · cases h
    · intro _; rw [hinvm, if_neg hmne]
    · intro hb
      rw [hform, if_pos hb]
      ring
    · intro hc
      have hbne : ¬(k = ShapeType.box) := by rw [hc]; decide
      rw [hform, if_neg hbne, if_pos hc]
      ring
    · rw [hinvin, hfix]
      constructor
      · intro h
        by_cases hiz : (addBody s k cfg).2.inertia = 0
        · exact Or.inl hiz
        · rw [if_neg (not_or.mpr ⟨hiz, Bool.false_ne_true⟩)] at h
          exact absurd h (one_div_ne_zero hiz)
      · intro h
        rcases h with h | h
        · rw [if_pos (Or.inl h)]
        · exact absurd h Bool.false_ne_true
    · intro h
      rw [hfix] at h
      have hiz : (addBody s k cfg).2.inertia ≠ 0 := by
        intro hz; exact h (Or.inl hz)
      rw [hinvin, if_neg (not_or.mpr ⟨hiz, Bool.false_ne_true⟩)]

theorem C5_amended_mass_properties_witness :
    ((({ mass := some (2 : ℝ) } : SimObjectConfig)).fixed.getD false = true →
      (add initCore ShapeType.box { mass := some (2 : ℝ) }).2.mass = 0) ∧
    ((({ mass := some (2 : ℝ) } : SimObjectConfig)).fixed.getD false = false →
      (∀ mv, (({ mass := some (2 : ℝ) } : SimObjectConfig)).mass = some mv →
        (add initCore ShapeType.box { mass := some (2 : ℝ) }).2.mass = mv) ∧
      ((({ mass := some (2 : ℝ) } : SimObjectConfig)).mass = none →
        (add initCore ShapeType.box { mass := some (2 : ℝ) }).2.mass = 1)) ∧
    ((add initCore ShapeType.box { mass := some (2 : ℝ) }).2.invMass = 0 ↔
      ((add initCore ShapeType.box { mass := some (2 : ℝ) }).2.mass = 0 ∨
        (add initCore ShapeType.box { mass := some (2 : ℝ) }).2.fixed = true)) ∧
    (¬((add initCore ShapeType.box { mass := some (2 : ℝ) }).2.mass = 0) →
      (add initCore ShapeType.box { mass := some (2 : ℝ) }).2.invMass =
        1 / (add initCore ShapeType.box { mass := some (2 : ℝ) }).2.mass) ∧
    (ShapeType.box = ShapeType.box →
      (add initCore ShapeType.box { mass := some (2 : ℝ) }).2.inertia =
        (add initCore ShapeType.box { mass := some (2 : ℝ) }).2.mass *
          ((add initCore ShapeType.box { mass := some (2 : ℝ) }).2.width ^ 2 +
            (add initCore ShapeType.box { mass := some (2 : ℝ) }).2.height ^ 2) / 12) ∧
    (ShapeType.box = ShapeType.circle →
      (add initCore ShapeType.box { mass := some (2 : ℝ) }).2.inertia =
        (add initCore ShapeType.box { mass := some (2 : ℝ) }).2.mass *
          (add initCore ShapeType.box { mass := some (2 : ℝ) }).2.radius ^ 2 / 2) ∧
    ((add initCore ShapeType.box { mass := some (2 : ℝ) }).2.invInertia = 0 ↔
      ((add initCore ShapeType.box { mass := some (2 : ℝ) }).2.inertia = 0 ∨
        (add initCore ShapeType.box { mass := some (2 : ℝ) }).2.fixed = true)) ∧
    (¬((add initCore ShapeType.box { mass := some (2 : ℝ) }).2.inertia = 0 ∨
        (add initCore ShapeType.box { mass := some (2 : ℝ) }).2.fixed = true) →
      (add initCore ShapeType.box { mass := some (2 : ℝ) }).2.invInertia =
        1 / (add initCore ShapeType.box { mass := some (2 : ℝ) }).2.inertia) :=
  C5_amended_mass_properties initCore ShapeType.box { mass := some (2 : ℝ) }
    (Or.inl rfl) (Or.inr ⟨2, rfl, by norm_num⟩)

/-! ### C6 — connect's rest length and stiffness defaults -/

theorem twoBody_find_A :
    twoBodyCore.objects.find? (fun o => o.id == "obj_1") =
      some (mkTestBody "obj_1" ⟨0, 0⟩ 1 false) := by
  show testPair.find? (fun o => o.id == "obj_1") = some (mkTestBody "obj_1" ⟨0, 0⟩ 1 false)
  unfold testPair
  rw [List.find?_cons_of_pos]
  decide

theorem twoBody_find_B :
    twoBodyCore.objects.find? (fun o => o.id == "obj_2") =
      some (mkTestBody "obj_2" ⟨1, 0⟩ 1 false) := by
  show testPair.find? (fun o => o.id == "obj_2") = some (mkTestBody "obj_2" ⟨1, 0⟩ 1 false)
  unfold testPair
  rw [List.find?_cons_of_neg, List.find?_cons_of_pos]
  · decide
  · decide

theorem twoBody_dist :
    Vec2.dist (mkTestBody "obj_1" ⟨0, 0⟩ 1 false).pos (mkTestBody "obj_2" ⟨1, 0⟩ 1 false).pos
      = 1 := by
  show Vec2.dist ⟨0, 0⟩ ⟨1, 0⟩ = 1
  unfold Vec2.dist
  dsimp only
  rw [show ((0:ℝ) - 1) ^ 2 + ((0:ℝ) - 0) ^ 2 = 1 by norm_num, Real.sqrt_one]

/-- C6 counterexample: on two registered bodies at distance 1, connect with an
explicitly supplied length of 0 records rest length 1 (the current distance),
not the supplied 0 — JavaScript's `config.length || dist` treats a supplied 0
as unsupplied.  This refutes the claim's clause "rest length equals
config.length when a length is explicitly supplied". -/
theorem C6_counterexample :
    (connect twoBodyCore "obj_1" "obj_2" { length := some 0 }).constraints.map
      (fun c => c.length) = [1] ∧ ¬((1 : ℝ) = 0) := by
  constructor
  · unfold connect
    rw [twoBody_find_A, twoBody_find_B]
    dsimp only
    rw [show jsOr (some 0)
        (Vec2.dist (mkTestBody "obj_1" ⟨0, 0⟩ 1 false).pos
          (mkTestBody "obj_2" ⟨1, 0⟩ 1 false).pos) =
        Vec2.dist (mkTestBody "obj_1" ⟨0, 0⟩ 1 false).pos
          (mkTestBody "obj_2" ⟨1, 0⟩ 1 false).pos from if_pos rfl]
    rw [twoBody_dist]
    rfl
  · norm_num

/-- C6 (amended): when both bodies exist, connect appends one constraint whose
rest length is the supplied length when that is nonzero (a supplied 0, like an
unsupplied length, falls back to the current inter-body distance) and whose
stiffness is the supplied stiffness when nonzero (0 or unsupplied falls back
to 0.5). -/
theorem C6_amended_connect (s : CoreState) (idA idB : String) (cfg : ConnectConfig)
    (A B : SimObject)
    (hA : s.objects.find? (fun o => o.id == idA) = some A)
    (hB : s.objects.find? (fun o => o.id == idB) = some B) :
    ∃ c, (connect s idA idB cfg).constraints = s.constraints ++ [c] ∧
      (∀ L, cfg.length = some L → L ≠ 0 → c.length = L) ∧
      ((cfg.length = none ∨ cfg.length = some 0) → c.length = Vec2.dist A.pos B.pos) ∧
      (∀ t, cfg.stiffness = some t → t ≠ 0 → c.stiffness = t) ∧
      ((cfg.stiffness = none ∨ cfg.stiffness = some 0) → c.stiffness = 0.5) := by
  unfold connect
  rw [hA, hB]
  dsimp only
  refine ⟨_, rfl, ?_, ?_, ?_, ?_⟩
  · intro L hL hLne
    rw [hL]
    show (if L = 0 then Vec2.dist A.pos B.pos else L) = L
    rw [if_neg hLne]
  · intro h
    rcases h with h | h
    · rw [h]; rfl
    · rw [h]
      show (if (0:ℝ) = 0 then Vec2.dist A.pos B.pos else 0) = Vec2.dist A.pos B.pos
      rw [if_pos rfl]
  · intro t ht htne
    rw [ht]
    show (if t = 0 then (0.5:ℝ) else t) = t
    rw [if_neg htne]
  · intro h
    rcases h with h | h
    · rw [h]; rfl
    · rw [h]
      show (if (0:ℝ) = 0 then (0.5:ℝ) else 0) = 0.5
      rw [if_pos rfl]

theorem C6_amended_connect_witness :
    ∃ c, (connect twoBodyCore "obj_1" "obj_2"
        { length := some 3, stiffness := some 1 }).constraints =
      twoBodyCore.constraints ++ [c] ∧
      (∀ L, (({ length := some 3, stiffness := some 1 } : ConnectConfig)).length = some L →
        L ≠ 0 → c.length = L) ∧
      ((({ length := some 3, stiffness := some 1 } : ConnectConfig)).length = none ∨
          (({ length := some 3, stiffness := some 1 } : ConnectConfig)).length = some 0 →
        c.length = Vec2.dist (mkTestBody "obj_1" ⟨0, 0⟩ 1 false).pos
          (mkTestBody "obj_2" ⟨1, 0⟩ 1 false).pos) ∧
      (∀ t, (({ length := some 3, stiffness := some 1 } : ConnectConfig)).stiffness = some t →
        t ≠ 0 → c.stiffness = t) ∧
      ((({ length := some 3, stiffness := some 1 } : ConnectConfig)).stiffness = none ∨
          (({ length := some 3, stiffness := some 1 } : ConnectConfig)).stiffness = some 0 →
        c.stiffness = 0.5) :=
  C6_amended_connect twoBodyCore "obj_1" "obj_2" { length := some 3, stiffness := some 1 }
    (mkTestBody "obj_1" ⟨0, 0⟩ 1 false) (mkTestBody "obj_2" ⟨1, 0⟩ 1 false)
    twoBody_find_A twoBody_find_B

/-! ### C4 — the distance-constraint solver -/

theorem findIdx?_set_congr {α : Type} (p : α → Bool) :
    ∀ (l : List α) (i : ℕ) (x : α),
      (∀ y, l[i]? = some y → p x = p y) →
      ∀ s, (l.set i x).findIdx? p s = l.findIdx? p s := by
  intro l
  induction l with
  | nil => intro i x hx s; rfl
  | cons a as ih =>
    intro i x hx s
    cases i with
    | zero =>
      have hpx : p x = p a := hx a (by simp)
      show ((x :: as).findIdx? p s) = ((a :: as).findIdx? p s)
      rw [List.findIdx?_cons, List.findIdx?_cons, hpx]
    | succ n =>
      show ((a :: as.set n x).findIdx? p s) = ((a :: as).findIdx? p s)
      rw [List.findIdx?_cons, List.findIdx?_cons]
      have hrec := ih n x (fun y hy => hx y (by simpa using hy)) (s + 1)
      cases hpa : p a
      · rw [if_neg Bool.false_ne_true, if_neg Bool.false_ne_true]
        exact hrec
      · rw [if_pos rfl, if_pos rfl]

/-- One pass of solveConstraint, characterized at the two endpoint indices. -/
theorem solveConstraint_spec (objs : List SimObject) (c : Constraint) (iA iB : ℕ)
    (A B : SimObject)
    (hiA : objs.findIdx? (fun o => o.id == c.bodyA) = some iA)
    (hiB : objs.findIdx? (fun o => o.id == c.bodyB) = some iB)
    (hgA : objs[iA]? = some A) (hgB : objs[iB]? = some B) :
    (A.fixed = true ∧ B.fixed = true → ConstraintSystem.solveConstraint objs c = objs) ∧
    (Vec2.dist A.pos B.pos = 0 → ConstraintSystem.solveConstraint objs c = objs) ∧
    (Vec2.dist A.pos B.pos ≠ 0 → ¬(A.fixed = true ∧ B.fixed = true) →
      ConstraintSystem.solveConstraint objs c =
        (objs.set iA
          (if A.fixed then A else { A with pos := Vec2.add A.pos (solveNudge A B c) })).set iB
          (if B.fixed then B else { B with pos := Vec2.sub B.pos (solveNudge A B c) })) := by
  unfold ConstraintSystem.solveConstraint
  rw [hiA, hiB]
  dsimp only
  rw [hgA, hgB]
  dsimp only
  refine ⟨?_, ?_, ?_⟩
  · intro h
    rw [if_pos (by rw [h.1, h.2]; rfl)]
  · intro hd0
    by_cases hff : (A.fixed && B.fixed) = true
    · rw [if_pos hff]
    · rw [if_neg hff, if_pos hd0]
  · intro hd hnff
    have hff : ¬((A.fixed && B.fixed) = true) := by
      intro h
      exact hnff (by simpa [Bool.and_eq_true] using h)
    rw [if_neg hff, if_neg hd]
    rfl

theorem solve_single (c : Constraint) (objs : List SimObject) :
    ConstraintSystem.solve [c] objs = ConstraintSystem.solveConstraint objs c := rfl

theorem dist_after_nudge (pA pB : Vec2) (L : ℝ) (hd : Vec2.dist pA pB ≠ 0) (hL : 0 ≤ L) :
    Vec2.dist
      (Vec2.add pA (Vec2.mul (Vec2.sub pB pA)
        ((Vec2.dist pA pB - L) / Vec2.dist pA pB * (1 * 0.5))))
      (Vec2.sub pB (Vec2.mul (Vec2.sub pB pA)
        ((Vec2.dist pA pB - L) / Vec2.dist pA pB * (1 * 0.5)))) = L := by
  have hsnn : 0 ≤ (pA.x - pB.x) ^ 2 + (pA.y - pB.y) ^ 2 := by positivity
  have hs : Vec2.dist pA pB = Real.sqrt ((pA.x - pB.x) ^ 2 + (pA.y - pB.y) ^ 2) := rfl
  have hdnn : 0 ≤ Vec2.dist pA pB := by rw [hs]; exact Real.sqrt_nonneg _
  have hdpos : 0 < Vec2.dist pA pB := lt_of_le_of_ne hdnn (Ne.symm hd)
  have hd2 : Vec2.dist pA pB ^ 2 = (pA.x - pB.x) ^ 2 + (pA.y - pB.y) ^ 2 := by
    rw [hs]
    exact Real.sq_sqrt hsnn
  set d := Vec2.dist pA pB with hdd
  unfold Vec2.dist Vec2.add Vec2.sub Vec2.mul
  dsimp only
  have hrad :
      (pA.x + (pB.x - pA.x) * ((d - L) / d * (1 * 0.5)) -
          (pB.x - (pB.x - pA.x) * ((d - L) / d * (1 * 0.5)))) ^ 2 +
        (pA.y + (pB.y - pA.y) * ((d - L) / d * (1 * 0.5)) -
          (pB.y - (pB.y - pA.y) * ((d - L) / d * (1 * 0.5)))) ^ 2 =
      (L / d) ^ 2 * ((pA.x - pB.x) ^ 2 + (pA.y - pB.y) ^ 2) := by
    have hxd : pA.x + (pB.x - pA.x) * ((d - L) / d * (1 * 0.5)) -
        (pB.x - (pB.x - pA.x) * ((d - L) / d * (1 * 0.5))) = (pA.x - pB.x) * (L / d) := by
      field_simp
      ring
    have hyd : pA.y + (pB.y - pA.y) * ((d - L) / d * (1 * 0.5)) -
        (pB.y - (pB.y - pA.y) * ((d - L) / d * (1 * 0.5))) = (pA.y - pB.y) * (L / d) := by
      field_simp
      ring
    rw [hxd, hyd]
    ring
  rw [hrad, ← hd2]
  rw [show (L / d) ^ 2 * d ^ 2 = L ^ 2 by field_simp]
  exact Real.sqrt_sq hL

/-- C4: a solver pass skips a constraint whose endpoints currently coincide
(d = 0); otherwise each non-fixed endpoint moves by the nudge
(d - restLength)/d · stiffness · 0.5 along the vector connecting the
endpoints, A along it and B against it (a fixed endpoint does not move); and
for stiffness 1 with both bodies non-fixed and initially d ≠ 0, every
iteration count k ≥ 1 (in particular the ≥ 5 iterations the engine runs per
sub-step) leaves the inter-body distance exactly at the rest length. -/
theorem C4_constraint_solver (objs : List SimObject) (c : Constraint) (iA iB : ℕ)
    (A B : SimObject)
    (hiA : objs.findIdx? (fun o => o.id == c.bodyA) = some iA)
    (hiB : objs.findIdx? (fun o => o.id == c.bodyB) = some iB)
    (hgA : objs[iA]? = some A) (hgB : objs[iB]? = some B) :
    (Vec2.dist A.pos B.pos = 0 → ConstraintSystem.solve [c] objs = objs) ∧
    (Vec2.dist A.pos B.pos ≠ 0 → ¬(A.fixed = true ∧ B.fixed = true) →
      ∃ A' B', (ConstraintSystem.solve [c] objs)[iA]? = some A' ∧
        (ConstraintSystem.solve [c] objs)[iB]? = some B' ∧
        (A.fixed = false → A'.pos = Vec2.add A.pos (solveNudge A B c)) ∧
        (A.fixed = true → A'.pos = A.pos) ∧
        (B.fixed = false → B'.pos = Vec2.sub B.pos (solveNudge A B c)) ∧
        (B.fixed = true → B'.pos = B.pos)) ∧
    (c.stiffness = 1 → A.fixed = false → B.fixed = false → Vec2.dist A.pos B.pos ≠ 0 →
      0 ≤ c.length → ∀ k, 1 ≤ k →
        ∃ A' B', ((fun os => ConstraintSystem.solve [c] os)^[k] objs)[iA]? = some A' ∧
          ((fun os => ConstraintSystem.solve [c] os)^[k] objs)[iB]? = some B' ∧
          Vec2.dist A'.pos B'.pos = c.length) := by
  obtain ⟨hspec1, hspec2, hspec3⟩ := solveConstraint_spec objs c iA iB A B hiA hiB hgA hgB
  have hlenA : iA < objs.length := by
    rcases List.getElem?_eq_some_iff.mp hgA with ⟨h, _⟩
    exact h
  have hlenB : iB < objs.length := by
    rcases List.getElem?_eq_some_iff.mp hgB with ⟨h, _⟩
    exact h
  refine ⟨?_, ?_, ?_⟩
  · intro hd0
    rw [solve_single]
    exact hspec2 hd0
  · intro hd hnff
    have hne : iA ≠ iB := by
      intro he
      apply hd
      rw [he] at hgA
      rw [hgA] at hgB
      injection hgB with h
      rw [h]
      exact Vec2.dist_self_eq_zero B.pos
    rw [solve_single, hspec3 hd hnff]
    refine ⟨(if A.fixed then A else { A with pos := Vec2.add A.pos (solveNudge A B c) }),
      (if B.fixed then B else { B with pos := Vec2.sub B.pos (solveNudge A B c) }),
      ?_, ?_, ?_, ?_, ?_, ?_⟩
    · rw [List.getElem?_set_ne (Ne.symm hne), List.getElem?_set_self (by simpa using hlenA)]
    · rw [List.getElem?_set_self (by simpa using hlenB)]
    · intro hf
      rw [if_neg (by rw [hf]; exact Bool.false_ne_true)]
    · intro hf
      rw [if_pos hf]
    · intro hf
      rw [if_neg (by rw [hf]; exact Bool.false_ne_true)]
    · intro hf
      rw [if_pos hf]
  · intro hstiff hfA hfB hd hL
    -- the invariant carried through the iterated passes
    have key : ∀ k, 1 ≤ k →
        ∃ A' B', ((fun os => ConstraintSystem.solve [c] os)^[k] objs).findIdx?
            (fun o => o.id == c.bodyA) = some iA ∧
          ((fun os => ConstraintSystem.solve [c] os)^[k] objs).findIdx?
            (fun o => o.id == c.bodyB) = some iB ∧
          ((fun os => ConstraintSystem.solve [c] os)^[k] objs)[iA]? = some A' ∧
          ((fun os => ConstraintSystem.solve [c] os)^[k] objs)[iB]? = some B' ∧
          A'.fixed = false ∧ B'.fixed = false ∧ A'.id = A.id ∧ B'.id = B.id ∧
          Vec2.dist A'.pos B'.pos = c.length := by
      have hne : iA ≠ iB := by
        intro he
        apply hd
        rw [he] at hgA
        rw [hgA] at hgB
        injection hgB with h
        rw [h]
        exact Vec2.dist_self_eq_zero B.pos
      -- one fully general step: any state satisfying the invariant shape
      have step : ∀ os (A' B' : SimObject),
          os.findIdx? (fun o => o.id == c.bodyA) = some iA →
          os.findIdx? (fun o => o.id == c.bodyB) = some iB →
          os[iA]? = some A' → os[iB]? = some B' →
          A'.fixed = false → B'.fixed = false →
          ∃ A2 B2,
            (ConstraintSystem.solve [c] os).findIdx? (fun o => o.id == c.bodyA) = some iA ∧
            (ConstraintSystem.solve [c] os).findIdx? (fun o => o.id == c.bodyB) = some iB ∧
            (ConstraintSystem.solve [c] os)[iA]? = some A2 ∧
            (ConstraintSystem.solve [c] os)[iB]? = some B2 ∧
            A2.fixed = false ∧ B2.fixed = false ∧ A2.id = A'.id ∧ B2.id = B'.id ∧
            ((Vec2.dist A'.pos B'.pos ≠ 0 →
              A2.pos = Vec2.add A'.pos (solveNudge A' B' c) ∧
              B2.pos = Vec2.sub B'.pos (solveNudge A' B' c)) ∧
             (Vec2.dist A'.pos B'.pos = 0 → A2.pos = A'.pos ∧ B2.pos = B'.pos)) := by
        intro os A' B' hiA' hiB' hgA' hgB' hfA' hfB'
        obtain ⟨_, hsp2, hsp3⟩ := solveConstraint_spec os c iA iB A' B' hiA' hiB' hgA' hgB'
        have hlenA' : iA < os.length := by
          rcases List.getElem?_eq_some_iff.mp hgA' with ⟨h, _⟩
          exact h
        have hlenB' : iB < os.length := by
          rcases List.getElem?_eq_some_iff.mp hgB' with ⟨h, _⟩
          exact h
        by_cases hd' : Vec2.dist A'.pos B'.pos = 0
        · rw [solve_single, hsp2 hd']
          refine ⟨A', B', hiA', hiB', hgA', hgB', hfA', hfB', rfl, rfl, ?_, ?_⟩
          · intro h; exact absurd hd' h
          · intro _; exact ⟨rfl, rfl⟩
        · have hres := hsp3 hd' (by intro h; rw [hfA'] at h; cases h.1)
          rw [solve_single, hres]
          set A2 := if A'.fixed then A'
            else { A' with pos := Vec2.add A'.pos (solveNudge A' B' c) } with hA2def
          set B2 := if B'.fixed then B'
            else { B' with pos := Vec2.sub B'.pos (solveNudge A' B' c) } with hB2def
          have hA2eq : A2 = { A' with pos := Vec2.add A'.pos (solveNudge A' B' c) } := by
            rw [hA2def, if_neg (by rw [hfA']; exact Bool.false_ne_true)]
          have hB2eq : B2 = { B' with pos := Vec2.sub B'.pos (solveNudge A' B' c) } := by
            rw [hB2def, if_neg (by rw [hfB']; exact Bool.false_ne_true)]
          refine ⟨A2, B2, ?_, ?_, ?_, ?_, ?_, ?_, ?_, ?_, ?_, ?_⟩
          · rw [findIdx?_set_congr _ _ _ _ ?hx, findIdx?_set_congr _ _ _ _ ?hy]
            · exact hiA'
            case hy =>
              intro y hy
              rw [hgA'] at hy
              injection hy with hy
              rw [← hy, hA2eq]
            case hx =>
              intro y hy
              rw [List.getElem?_set_ne hne, hgB'] at hy
              injection hy with hy
              rw [← hy, hB2eq]
          · rw [findIdx?_set_congr _ _ _ _ ?hx2, findIdx?_set_congr _ _ _ _ ?hy2]
            · exact hiB'
            case hy2 =>
              intro y hy
              rw [hgA'] at hy
              injection hy with hy
              rw [← hy, hA2eq]
            case hx2 =>
              intro y hy
              rw [List.getElem?_set_ne hne, hgB'] at hy
              injection hy with hy
              rw [← hy, hB2eq]
          · rw [List.getElem?_set_ne (Ne.symm hne),
              List.getElem?_set_self (by simpa using hlenA')]
          · rw [List.getElem?_set_self (by simpa using hlenB')]
          · rw [hA2eq]; exact hfA'
          · rw [hB2eq]; exact hfB'
          · rw [hA2eq]
          · rw [hB2eq]
          · intro _
            rw [hA2eq, hB2eq]
            exact ⟨rfl, rfl⟩
          · intro h; exact absurd h hd'
      -- base case: one pass lands exactly on the rest length
      intro k hk
      induction k with
      | zero => cases hk
      | succ n ih =>
        cases Nat.eq_or_lt_of_le hk with
        | inl h1 =>
          -- k = 1: apply the step to the initial state and use dist_after_nudge
          have h1' : n = 0 := by omega
          subst h1'
          obtain ⟨A2, B2, hi1, hi2, hg1, hg2, hf1, hf2, hid1, hid2, hmove⟩ :=
            step objs A B hiA hiB hgA hgB hfA hfB
          refine ⟨A2, B2, ?_, ?_, ?_, ?_, hf1, hf2, hid1, hid2, ?_⟩
          · exact hi1
          · exact hi2
          · exact hg1
          · exact hg2
          · obtain ⟨hmA, hmB⟩ := hmove.1 hd
            rw [hmA, hmB]
            unfold solveNudge
            rw [hstiff]
            exact dist_after_nudge A.pos B.pos c.length hd hL
        | inr h1 =>
          have hn1 : 1 ≤ n := by omega
          obtain ⟨A', B', hi1, hi2, hg1, hg2, hf1, hf2, hid1, hid2, hdist'⟩ := ih hn1
          obtain ⟨A2, B2, hj1, hj2, hh1, hh2, hf1', hf2', hid1', hid2', hmove⟩ :=
            step _ A' B' hi1 hi2 hg1 hg2 hf1 hf2
          rw [Function.iterate_succ_apply']
          refine ⟨A2, B2, hj1, hj2, hh1, hh2, hf1', hf2', hid1'.trans hid1,
            hid2'.trans hid2, ?_⟩
          by_cases hdz : Vec2.dist A'.pos B'.pos = 0
          · obtain ⟨hmA, hmB⟩ := hmove.2 hdz
            rw [hmA, hmB, hdist']
          · obtain ⟨hmA, hmB⟩ := hmove.1 hdz
            have hnz : solveNudge A' B' c = ⟨0, 0⟩ := by
              unfold solveNudge
              rw [hdist']
              have : (c.length - c.length) / c.length * (c.stiffness * 0.5) = 0 := by
                rw [sub_self, zero_div, zero_mul]
              rw [this]
              simp [Vec2.mul]
            rw [hmA, hmB, hnz]
            have hposA : Vec2.add A'.pos ⟨0, 0⟩ = A'.pos := by
              simp [Vec2.add]
            have hposB : Vec2.sub B'.pos ⟨0, 0⟩ = B'.pos := by
              simp [Vec2.sub]
            rw [hposA, hposB, hdist']
    intro k hk
    obtain ⟨A', B', _, _, hg1, hg2, _, _, _, _, hdist'⟩ := key k hk
    exact ⟨A', B', hg1, hg2, hdist'⟩

theorem C4_constraint_solver_witness :
    (Vec2.dist (mkTestBody "obj_1" ⟨0, 0⟩ 1 false).pos
        (mkTestBody "obj_2" ⟨1, 0⟩ 1 false).pos = 0 →
      ConstraintSystem.solve [testConstraint] testPair = testPair) ∧
    (Vec2.dist (mkTestBody "obj_1" ⟨0, 0⟩ 1 false).pos
        (mkTestBody "obj_2" ⟨1, 0⟩ 1 false).pos ≠ 0 →
      ¬((mkTestBody "obj_1" ⟨0, 0⟩ 1 false).fixed = true ∧
          (mkTestBody "obj_2" ⟨1, 0⟩ 1 false).fixed = true) →
      ∃ A' B', (ConstraintSystem.solve [testConstraint] testPair)[0]? = some A' ∧
        (ConstraintSystem.solve [testConstraint] testPair)[1]? = some B' ∧
        ((mkTestBody "obj_1" ⟨0, 0⟩ 1 false).fixed = false →
          A'.pos = Vec2.add (mkTestBody "obj_1" ⟨0, 0⟩ 1 false).pos
            (solveNudge (mkTestBody "obj_1" ⟨0, 0⟩ 1 false)
              (mkTestBody "obj_2" ⟨1, 0⟩ 1 false) testConstraint)) ∧
        ((mkTestBody "obj_1" ⟨0, 0⟩ 1 false).fixed = true →
          A'.pos = (mkTestBody "obj_1" ⟨0, 0⟩ 1 false).pos) ∧
        ((mkTestBody "obj_2" ⟨1, 0⟩ 1 false).fixed = false →
          B'.pos = Vec2.sub (mkTestBody "obj_2" ⟨1, 0⟩ 1 false).pos
            (solveNudge (mkTestBody "obj_1" ⟨0, 0⟩ 1 false)
              (mkTestBody "obj_2" ⟨1, 0⟩ 1 false) testConstraint)) ∧
        ((mkTestBody "obj_2" ⟨1, 0⟩ 1 false).fixed = true →
          B'.pos = (mkTestBody "obj_2" ⟨1, 0⟩ 1 false).pos)) ∧
    (testConstraint.stiffness = 1 →
      (mkTestBody "obj_1" ⟨0, 0⟩ 1 false).fixed = false →
      (mkTestBody "obj_2" ⟨1, 0⟩ 1 false).fixed = false →
      Vec2.dist (mkTestBody "obj_1" ⟨0, 0⟩ 1 false).pos
        (mkTestBody "obj_2" ⟨1, 0⟩ 1 false).pos ≠ 0 →
      0 ≤ testConstraint.length → ∀ k, 1 ≤ k →
        ∃ A' B',
          ((fun os => ConstraintSystem.solve [testConstraint] os)^[k] testPair)[0]? = some A' ∧
          ((fun os => ConstraintSystem.solve [testConstraint] os)^[k] testPair)[1]? = some B' ∧
          Vec2.dist A'.pos B'.pos = testConstraint.length) :=
  C4_constraint_solver testPair testConstraint 0 1
    (mkTestBody "obj_1" ⟨0, 0⟩ 1 false) (mkTestBody "obj_2" ⟨1, 0⟩ 1 false)
    (by decide) (by decide) rfl rfl

/-! ### C3 — polygon vs polygon SAT detection -/

theorem Vec2.dot_mul_neg_one (v w : Vec2) : Vec2.dot v (Vec2.mul w (-1)) = -Vec2.dot v w := by
  unfold Vec2.dot Vec2.mul
  dsimp only
  ring

theorem satScan_eq_none_iff (aV bV : List Vec2) (axes : List Vec2) (acc : Option (Vec2 × ℝ)) :
    CollisionSystem.satScan aV bV axes acc = none ↔
      ∃ ax ∈ axes, CollisionSystem.sepOn aV bV ax := by
  induction axes generalizing acc with
  | nil => simp [CollisionSystem.satScan]
  | cons a rest ih =>
    simp only [CollisionSystem.satScan]
    by_cases hsep : CollisionSystem.sepOn aV bV a
    · rw [if_pos hsep]
      simp only [List.mem_cons]
      exact ⟨fun _ => ⟨a, Or.inl rfl, hsep⟩, fun _ => by trivial⟩
    · rw [if_neg hsep, ih]
      constructor
      · rintro ⟨ax, hax, hs⟩
        exact ⟨ax, List.mem_cons_of_mem _ hax, hs⟩
      · rintro ⟨ax, hax, hs⟩
        rcases List.mem_cons.mp hax with rfl | hax'
        · exact absurd hs hsep
        · exact ⟨ax, hax', hs⟩

theorem satScan_min (aV bV : List Vec2) :
    ∀ (axes : List Vec2) (n0 : Vec2) (d0 : ℝ),
      (∀ ax ∈ axes, ¬CollisionSystem.sepOn aV bV ax) →
      ∃ n1 d1, CollisionSystem.satScan aV bV axes (some (n0, d0)) = some (some (n1, d1)) ∧
        d1 ≤ d0 ∧ (∀ ax ∈ axes, d1 ≤ CollisionSystem.overlapOn aV bV ax) ∧
        ((n1, d1) = (n0, d0) ∨
          ∃ ax ∈ axes, n1 = ax ∧ d1 = CollisionSystem.overlapOn aV bV ax) := by
  intro axes
  induction axes with
  | nil =>
    intro n0 d0 _
    exact ⟨n0, d0, rfl, le_refl _, by simp, Or.inl rfl⟩
  | cons a rest ih =>
    intro n0 d0 hns
    have hnsa : ¬CollisionSystem.sepOn aV bV a := hns a (List.mem_cons_self a rest)
    have hnsr : ∀ ax ∈ rest, ¬CollisionSystem.sepOn aV bV ax :=
      fun ax hax => hns ax (List.mem_cons_of_mem a hax)
    by_cases hlt : CollisionSystem.overlapOn aV bV a < d0
    · obtain ⟨n1, d1, hscan, hle, hall, hattain⟩ :=
        ih a (CollisionSystem.overlapOn aV bV a) hnsr
      refine ⟨n1, d1, ?_, le_of_lt (lt_of_le_of_lt hle hlt), ?_, ?_⟩
      · simp only [CollisionSystem.satScan]
        rw [if_neg hnsa]
        try dsimp only
        rw [if_pos hlt]
        exact hscan
      · intro ax hax
        rcases List.mem_cons.mp hax with rfl | hax'
        · exact hle
        · exact hall ax hax'
      · rcases hattain with h | ⟨ax, hax, h1, h2⟩
        · refine Or.inr ⟨a, List.mem_cons_self a rest, ?_, ?_⟩
          · exact congrArg Prod.fst h
          · exact congrArg Prod.snd h
        · exact Or.inr ⟨ax, List.mem_cons_of_mem a hax, h1, h2⟩
    · obtain ⟨n1, d1, hscan, hle, hall, hattain⟩ := ih n0 d0 hnsr
      refine ⟨n1, d1, ?_, hle, ?_, ?_⟩
      · simp only [CollisionSystem.satScan]
        rw [if_neg hnsa]
        try dsimp only
        rw [if_neg hlt]
        exact hscan
      · intro ax hax
        rcases List.mem_cons.mp hax with rfl | hax'
        · exact le_trans hle (le_of_not_lt hlt)
        · exact hall ax hax'
      · rcases hattain with h | ⟨ax, hax, h1, h2⟩
        · exact Or.inl h
        · exact Or.inr ⟨ax, List.mem_cons_of_mem a hax, h1, h2⟩

theorem satScan_from_none (aV bV : List Vec2) (a : Vec2) (rest : List Vec2)
    (hns : ∀ ax ∈ a :: rest, ¬CollisionSystem.sepOn aV bV ax) :
    ∃ n1 d1, CollisionSystem.satScan aV bV (a :: rest) none = some (some (n1, d1)) ∧
      (∀ ax ∈ a :: rest, d1 ≤ CollisionSystem.overlapOn aV bV ax) ∧
      ∃ ax ∈ a :: rest, n1 = ax ∧ d1 = CollisionSystem.overlapOn aV bV ax := by
  have hnsa : ¬CollisionSystem.sepOn aV bV a := hns a (List.mem_cons_self a rest)
  have hnsr : ∀ ax ∈ rest, ¬CollisionSystem.sepOn aV bV ax :=
    fun ax hax => hns ax (List.mem_cons_of_mem a hax)
  obtain ⟨n1, d1, hscan, hle, hall, hattain⟩ :=
    satScan_min aV bV rest a (CollisionSystem.overlapOn aV bV a) hnsr
  refine ⟨n1, d1, ?_, ?_, ?_⟩
  · simp only [CollisionSystem.satScan]
    rw [if_neg hnsa]
    exact hscan
  · intro ax hax
    rcases List.mem_cons.mp hax with rfl | hax'
    · exact hle
    · exact hall ax hax'
  · rcases hattain with h | ⟨ax, hax, h1, h2⟩
    · exact ⟨a, List.mem_cons_self a rest,
        congrArg Prod.fst h, congrArg Prod.snd h⟩
    · exact ⟨ax, List.mem_cons_of_mem a hax, h1, h2⟩

theorem axesOf_ne_nil (verts : List Vec2) (h : verts ≠ []) :
    CollisionSystem.axesOf verts ≠ [] := by
  unfold CollisionSystem.axesOf
  intro hcon
  apply h
  have hlen := congrArg List.length hcon
  simp only [List.length_map, List.length_range, List.length_nil] at hlen
  exact List.eq_nil_of_length_eq_zero hlen

/-- C3: polygonVsPolygon reports no collision exactly when the two cached
vertex sets have disjoint projections (zero overlap included) on some
perpendicular edge axis of either box; when it reports a collision, the
manifold's depth is the minimum projected overlap over all tested axes, its
normal is (up to sign) an axis attaining that minimum, and the normal is
canonicalized to a nonnegative dot product with the center-to-center vector
from the first body to the second. -/
theorem C3_polygon_vs_polygon (A B : SimObject) (hA : A.vertices ≠ []) :
    (CollisionSystem.polygonVsPolygon A B = none ↔
      ∃ ax ∈ CollisionSystem.axesOf A.vertices ++ CollisionSystem.axesOf B.vertices,
        CollisionSystem.sepOn A.vertices B.vertices ax) ∧
    (∀ m, CollisionSystem.polygonVsPolygon A B = some m →
      m.hasCollision = true ∧
      (∀ ax ∈ CollisionSystem.axesOf A.vertices ++ CollisionSystem.axesOf B.vertices,
        m.depth ≤ CollisionSystem.overlapOn A.vertices B.vertices ax) ∧
      (∃ ax ∈ CollisionSystem.axesOf A.vertices ++ CollisionSystem.axesOf B.vertices,
        (m.normal = ax ∨ m.normal = Vec2.mul ax (-1)) ∧
          m.depth = CollisionSystem.overlapOn A.vertices B.vertices ax) ∧
      0 ≤ Vec2.dot (Vec2.sub B.pos A.pos) m.normal) := by
  have haxes : CollisionSystem.axesOf A.vertices ++ CollisionSystem.axesOf B.vertices ≠ [] := by
    intro hcon
    exact axesOf_ne_nil A.vertices hA (List.append_eq_nil.mp hcon).1
  obtain ⟨a, rest, hcons⟩ := List.exists_cons_of_ne_nil haxes
  by_cases hsep : ∃ ax ∈ CollisionSystem.axesOf A.vertices ++ CollisionSystem.axesOf B.vertices,
      CollisionSystem.sepOn A.vertices B.vertices ax
  · have hnone : CollisionSystem.satScan A.vertices B.vertices
        (CollisionSystem.axesOf A.vertices ++ CollisionSystem.axesOf B.vertices) none = none :=
      (satScan_eq_none_iff _ _ _ _).mpr hsep
    have hpoly : CollisionSystem.polygonVsPolygon A B = none := by
      unfold CollisionSystem.polygonVsPolygon
      rw [hnone]
    refine ⟨⟨fun _ => hsep, fun _ => hpoly⟩, ?_⟩
    intro m hm
    rw [hpoly] at hm
    cases hm
  · have hns : ∀ ax ∈ CollisionSystem.axesOf A.vertices ++ CollisionSystem.axesOf B.vertices,
        ¬CollisionSystem.sepOn A.vertices B.vertices ax := by
      intro ax hax hs
      exact hsep ⟨ax, hax, hs⟩
    rw [hcons] at hns
    obtain ⟨n1, d1, hscan, hall, ax0, hax0, hnx, hdx⟩ :=
      satScan_from_none A.vertices B.vertices a rest hns
    rw [← hcons] at hscan hall hax0
    have hpoly : CollisionSystem.polygonVsPolygon A B =
        some { bodyA := A, bodyB := B,
               normal := if Vec2.dot (Vec2.sub B.pos A.pos) n1 < 0 then Vec2.mul n1 (-1)
                 else n1,
               depth := d1, hasCollision := true } := by
      unfold CollisionSystem.polygonVsPolygon
      rw [hscan]
    constructor
    · rw [hpoly]
      constructor
      · intro h
        cases h
      · intro h
        exact absurd h hsep
    · intro m hm
      rw [hpoly] at hm
      injection hm with hm
      subst hm
      refine ⟨rfl, ?_, ?_, ?_⟩
      · intro ax hax
        exact hall ax hax
      · refine ⟨ax0, hax0, ?_, hdx⟩
        dsimp only
        split
        · exact Or.inr (by rw [hnx])
        · exact Or.inl hnx
      · dsimp only
        split
        · rename_i hlt
          rw [Vec2.dot_mul_neg_one]
          linarith
        · rename_i hge
          exact le_of_not_lt hge

theorem C3_polygon_vs_polygon_witness :
    (CollisionSystem.polygonVsPolygon (mkTestBox "bx1" ⟨0, 0⟩ 1 1)
        (mkTestBox "bx2" ⟨1.5, 0⟩ 1 1) = none ↔
      ∃ ax ∈ CollisionSystem.axesOf (mkTestBox "bx1" ⟨0, 0⟩ 1 1).vertices ++
          CollisionSystem.axesOf (mkTestBox "bx2" ⟨1.5, 0⟩ 1 1).vertices,
        CollisionSystem.sepOn (mkTestBox "bx1" ⟨0, 0⟩ 1 1).vertices
          (mkTestBox "bx2" ⟨1.5, 0⟩ 1 1).vertices ax) ∧
    (∀ m, CollisionSystem.polygonVsPolygon (mkTestBox "bx1" ⟨0, 0⟩ 1 1)
        (mkTestBox "bx2" ⟨1.5, 0⟩ 1 1) = some m →
      m.hasCollision = true ∧
      (∀ ax ∈ CollisionSystem.axesOf (mkTestBox "bx1" ⟨0, 0⟩ 1 1).vertices ++
          CollisionSystem.axesOf (mkTestBox "bx2" ⟨1.5, 0⟩ 1 1).vertices,
        m.depth ≤ CollisionSystem.overlapOn (mkTestBox "bx1" ⟨0, 0⟩ 1 1).vertices
          (mkTestBox "bx2" ⟨1.5, 0⟩ 1 1).vertices ax) ∧
      (∃ ax ∈ CollisionSystem.axesOf (mkTestBox "bx1" ⟨0, 0⟩ 1 1).vertices ++
          CollisionSystem.axesOf (mkTestBox "bx2" ⟨1.5, 0⟩ 1 1).vertices,
        (m.normal = ax ∨ m.normal = Vec2.mul ax (-1)) ∧
          m.depth = CollisionSystem.overlapOn (mkTestBox "bx1" ⟨0, 0⟩ 1 1).vertices
            (mkTestBox "bx2" ⟨1.5, 0⟩ 1 1).vertices ax) ∧
      0 ≤ Vec2.dot (Vec2.sub (mkTestBox "bx2" ⟨1.5, 0⟩ 1 1).pos
        (mkTestBox "bx1" ⟨0, 0⟩ 1 1).pos) m.normal) :=
  C3_polygon_vs_polygon (mkTestBox "bx1" ⟨0, 0⟩ 1 1) (mkTestBox "bx2" ⟨1.5, 0⟩ 1 1)
    (by simp [mkTestBox])

/-! ### C1 — fixed bodies: invariants and immobility -/

theorem keepsFixed_id : KeepsFixed (fun objs => objs) := by
  intro objs
  exact ⟨rfl, fun i o h => ⟨o, h, rfl, rfl, rfl, rfl, fun _ => rfl⟩⟩

theorem keepsFixed_comp {f g : List SimObject → List SimObject}
    (hf : KeepsFixed f) (hg : KeepsFixed g) : KeepsFixed (fun objs => g (f objs)) := by
  intro objs
  obtain ⟨hflen, hfpt⟩ := hf objs
  obtain ⟨hglen, hgpt⟩ := hg (f objs)
  refine ⟨hglen.trans hflen, ?_⟩
  intro i o h
  obtain ⟨o1, h1, hid1, hfx1, him1, hii1, hp1⟩ := hfpt i o h
  obtain ⟨o2, h2, hid2, hfx2, him2, hii2, hp2⟩ := hgpt i o1 h1
  refine ⟨o2, h2, hid2.trans hid1, hfx2.trans hfx1, him2.trans him1, hii2.trans hii1, ?_⟩
  intro hfo
  rw [hp2 (by rw [hfx1, hfo]), hp1 hfo]

theorem keepsFixed_iterate {f : List SimObject → List SimObject} (hf : KeepsFixed f) :
    ∀ n : ℕ, KeepsFixed (f^[n]) := by
  intro n
  induction n with
  | zero => exact keepsFixed_id
  | succ m ih =>
    intro objs
    rw [Function.iterate_succ_apply']
    exact keepsFixed_comp ih hf objs

theorem keepsFixed_foldl {β : Type} {step : List SimObject → β → List SimObject}
    (hstep : ∀ b, KeepsFixed (fun l => step l b)) :
    ∀ items : List β, KeepsFixed (fun l => items.foldl step l) := by
  intro items
  induction items with
  | nil => exact keepsFixed_id
  | cons b bs ih =>
    intro objs
    show (bs.foldl step (step objs b)).length = objs.length ∧ _
    exact keepsFixed_comp (hstep b) ih objs

theorem keepsFixed_map {h : SimObject → SimObject}
    (hh : ∀ o, (h o).id = o.id ∧ (h o).fixed = o.fixed ∧ (h o).invMass = o.invMass ∧
      (h o).invInertia = o.invInertia ∧ (o.fixed = true → (h o).pos = o.pos)) :
    KeepsFixed (List.map h) := by
  intro objs
  refine ⟨List.length_map _ _, ?_⟩
  intro i o ho
  refine ⟨h o, ?_, (hh o).1, (hh o).2.1, (hh o).2.2.1, (hh o).2.2.2.1, (hh o).2.2.2.2⟩
  rw [List.getElem?_map, ho]
  rfl

theorem keepsFixed_applyForces (dragged : Option String) :
    KeepsFixed (applyForces dragged) := by
  apply keepsFixed_map
  intro o
  split
  · exact ⟨rfl, rfl, rfl, rfl, fun _ => rfl⟩
  · exact ⟨rfl, rfl, rfl, rfl, fun _ => rfl⟩

theorem keepsFixed_integrate (dragged : Option String) (dt : ℝ) :
    KeepsFixed (integrate dragged dt) := by
  apply keepsFixed_map
  intro o
  by_cases hf : o.fixed = true
  · rw [if_pos hf]
    exact ⟨rfl, rfl, rfl, rfl, fun _ => rfl⟩
  · rw [if_neg hf]
    split
    · exact ⟨rfl, rfl, rfl, rfl, fun h => absurd h hf⟩
    · exact ⟨rfl, rfl, rfl, rfl, fun h => absurd h hf⟩

theorem keepsFixed_updateGeometry : KeepsFixed (List.map updateGeometry) := by
  apply keepsFixed_map
  intro o
  exact ⟨updateGeometry_id o, updateGeometry_fixed o, updateGeometry_invMass o,
    updateGeometry_invInertia o, fun _ => updateGeometry_pos o⟩

theorem solveConstraint_cases (objs : List SimObject) (c : Constraint) :
    ConstraintSystem.solveConstraint objs c = objs ∨
    ∃ iA iB bodyA bodyB a' b',
      objs[iA]? = some bodyA ∧ objs[iB]? = some bodyB ∧
      ConstraintSystem.solveConstraint objs c = (objs.set iA a').set iB b' ∧
      a'.id = bodyA.id ∧ a'.fixed = bodyA.fixed ∧ a'.invMass = bodyA.invMass ∧
      a'.invInertia = bodyA.invInertia ∧ (bodyA.fixed = true → a'.pos = bodyA.pos) ∧
      b'.id = bodyB.id ∧ b'.fixed = bodyB.fixed ∧ b'.invMass = bodyB.invMass ∧
      b'.invInertia = bodyB.invInertia ∧ (bodyB.fixed = true → b'.pos = bodyB.pos) := by
  unfold ConstraintSystem.solveConstraint
  rcases h1 : objs.findIdx? (fun o => o.id == c.bodyA) with _ | iA <;> rw [h1]
  · exact Or.inl rfl
  rcases h2 : objs.findIdx? (fun o => o.id == c.bodyB) with _ | iB <;> rw [h2]
  · exact Or.inl rfl
  dsimp only
  rcases h3 : objs[iA]? with _ | bodyA <;> (try rw [h3])
  · exact Or.inl rfl
  rcases h4 : objs[iB]? with _ | bodyB <;> (try rw [h4])
  · exact Or.inl rfl
  dsimp only
  by_cases hff : (bodyA.fixed && bodyB.fixed) = true
  · rw [if_pos hff]
    exact Or.inl rfl
  rw [if_neg hff]
  by_cases hd0 : Vec2.dist bodyA.pos bodyB.pos = 0
  · rw [if_pos hd0]
    exact Or.inl rfl
  rw [if_neg hd0]
  refine Or.inr ⟨iA, iB, bodyA, bodyB, _, _, h3, h4, rfl, ?_, ?_, ?_, ?_, ?_, ?_, ?_, ?_, ?_, ?_⟩
  · split <;> rfl
  · split <;> rfl
  · split <;> rfl
  · split <;> rfl
  · intro hf
    rw [if_pos hf]
  · split <;> rfl
  · split <;> rfl
  · split <;> rfl
  · split <;> rfl
  · intro hf
    rw [if_pos hf]

theorem keepsFixed_set_pair (objs : List SimObject) (iA iB : ℕ) (bodyA bodyB a' b' : SimObject)
    (hgA : objs[iA]? = some bodyA) (hgB : objs[iB]? = some bodyB)
    (ha : a'.id = bodyA.id ∧ a'.fixed = bodyA.fixed ∧ a'.invMass = bodyA.invMass ∧
      a'.invInertia = bodyA.invInertia ∧ (bodyA.fixed = true → a'.pos = bodyA.pos))
    (hb : b'.id = bodyB.id ∧ b'.fixed = bodyB.fixed ∧ b'.invMass = bodyB.invMass ∧
      b'.invInertia = bodyB.invInertia ∧ (bodyB.fixed = true → b'.pos = bodyB.pos)) :
    ((objs.set iA a').set iB b').length = objs.length ∧
    ∀ (i : ℕ) (o : SimObject), objs[i]? = some o →
      ∃ o', ((objs.set iA a').set iB b')[i]? = some o' ∧
        o'.id = o.id ∧ o'.fixed = o.fixed ∧ o'.invMass = o.invMass ∧
        o'.invInertia = o.invInertia ∧ (o.fixed = true → o'.pos = o.pos) := by
  have hlenB : iB < objs.length := by
    rcases List.getElem?_eq_some_iff.mp hgB with ⟨h, _⟩
    exact h
  have hlenA : iA < objs.length := by
    rcases List.getElem?_eq_some_iff.mp hgA with ⟨h, _⟩
    exact h
  refine ⟨by simp, ?_⟩
  intro i o ho
  by_cases hiB : i = iB
  · subst hiB
    have hob : o = bodyB := by
      rw [ho] at hgB
      exact Option.some.inj hgB
    subst hob
    exact ⟨b', by rw [List.getElem?_set_self (by simpa using hlenB)], hb.1, hb.2.1,
      hb.2.2.1, hb.2.2.2.1, hb.2.2.2.2⟩
  · by_cases hiA : i = iA
    · subst hiA
      have hoa : o = bodyA := by
        rw [ho] at hgA
        exact Option.some.inj hgA
      subst hoa
      refine ⟨a', ?_, ha.1, ha.2.1, ha.2.2.1, ha.2.2.2.1, ha.2.2.2.2⟩
      rw [List.getElem?_set_ne (fun h => hiB h.symm),
        List.getElem?_set_self (by simpa using hlenA)]
    · refine ⟨o, ?_, rfl, rfl, rfl, rfl, fun _ => rfl⟩
      rw [List.getElem?_set_ne (fun h => hiB h.symm), List.getElem?_set_ne
        (fun h => hiA h.symm)]
      exact ho

theorem keepsFixed_solveConstraint (c : Constraint) :
    KeepsFixed (fun objs => ConstraintSystem.solveConstraint objs c) := by
  intro objs
  dsimp only
  rcases solveConstraint_cases objs c with h | ⟨iA, iB, bodyA, bodyB, a', b', hgA, hgB, heq,
    ha1, ha2, ha3, ha4, ha5, hb1, hb2, hb3, hb4, hb5⟩
  · rw [h]
    exact (keepsFixed_id objs)
  · rw [heq]
    exact keepsFixed_set_pair objs iA iB bodyA bodyB a' b' hgA hgB
      ⟨ha1, ha2, ha3, ha4, ha5⟩ ⟨hb1, hb2, hb3, hb4, hb5⟩

theorem keepsFixed_solve (cs : List Constraint) :
    KeepsFixed (fun objs => ConstraintSystem.solve cs objs) :=
  keepsFixed_foldl keepsFixed_solveConstraint cs

theorem circleVsCircle_bodies (A B : SimObject) :
    (CollisionSystem.circleVsCircle A B).bodyA = A ∧
    (CollisionSystem.circleVsCircle A B).bodyB = B := by
  unfold CollisionSystem.circleVsCircle
  dsimp only
  split_ifs <;> exact ⟨rfl, rfl⟩

theorem polygonVsPolygon_bodies (A B : SimObject) (m : Manifold)
    (h : CollisionSystem.polygonVsPolygon A B = some m) : m.bodyA = A ∧ m.bodyB = B := by
  unfold CollisionSystem.polygonVsPolygon at h
  rcases hs : CollisionSystem.satScan A.vertices B.vertices
      (CollisionSystem.axesOf A.vertices ++ CollisionSystem.axesOf B.vertices) none
    with _ | acc
  · rw [hs] at h
    cases h
  · rw [hs] at h
    rcases acc with _ | ⟨n, d⟩
    · cases h
    · injection h with h
      rw [← h]
      exact ⟨rfl, rfl⟩

theorem circleVsPolygon_bodies (C P : SimObject) (m : Manifold)
    (h : CollisionSystem.circleVsPolygon C P = some m) : m.bodyA = C ∧ m.bodyB = P := by
  unfold CollisionSystem.circleVsPolygon at h
  rcases hs : CollisionSystem.circleSatScan C P.vertices
      (CollisionSystem.axesOf P.vertices) none with _ | acc
  · rw [hs] at h
    cases h
  · rw [hs] at h
    rcases hv : P.vertices with _ | ⟨pv0, pvRest⟩
    · rw [hv] at h
      cases h
    · rw [hv] at h
      dsimp only at h
      rcases hc : CollisionSystem.circleAxisCheck C (pv0 :: pvRest)
          (Vec2.normalize (Vec2.sub
            (CollisionSystem.closestVertex C.pos pvRest pv0) C.pos)) with _ | d2
      · rw [hc] at h
        cases h
      · rw [hc] at h
        injection h with h
        rw [← h]
        exact ⟨rfl, rfl⟩

theorem detect_bodies (A B : SimObject) (m : Manifold)
    (h : CollisionSystem.detectCollision A B = some m) :
    (m.bodyA = A ∧ m.bodyB = B) ∨ (m.bodyA = B ∧ m.bodyB = A) := by
  unfold CollisionSystem.detectCollision at h
  split_ifs at h
  · injection h with h
    rw [← h]
    exact Or.inl (circleVsCircle_bodies A B)
  · exact Or.inl (polygonVsPolygon_bodies A B m h)
  · exact Or.inl (circleVsPolygon_bodies A B m h)
  · exact Or.inr (circleVsPolygon_bodies B A m h)
  · exact Or.inr (polygonVsPolygon_bodies B A m h)
  · exact Or.inl (polygonVsPolygon_bodies A B m h)
  · exact Or.inr (circleVsPolygon_bodies B A m h)
  · exact Or.inl (circleVsPolygon_bodies A B m h)

theorem applyResolution_fst (m : Manifold) :
    (CollisionSystem.applyResolution m).1.id = m.bodyA.id ∧
    (CollisionSystem.applyResolution m).1.fixed = m.bodyA.fixed ∧
    (CollisionSystem.applyResolution m).1.invMass = m.bodyA.invMass ∧
    (CollisionSystem.applyResolution m).1.invInertia = m.bodyA.invInertia ∧
    (m.bodyA.fixed = true → (CollisionSystem.applyResolution m).1.pos = m.bodyA.pos) := by
  unfold CollisionSystem.applyResolution
  by_cases hsum : m.bodyA.invMass + m.bodyB.invMass = 0
  · rw [if_pos hsum]
    exact ⟨rfl, rfl, rfl, rfl, fun _ => rfl⟩
  · rw [if_neg hsum]
    dsimp only
    by_cases hfA : m.bodyA.fixed = true
    · rw [if_pos hfA, if_pos hfA]
      exact ⟨rfl, rfl, rfl, rfl, fun _ => rfl⟩
    · rw [if_neg hfA, if_neg hfA]
      exact ⟨rfl, rfl, rfl, rfl, fun h => absurd h hfA⟩

theorem applyResolution_snd (m : Manifold) :
    (CollisionSystem.applyResolution m).2.id = m.bodyB.id ∧
    (CollisionSystem.applyResolution m).2.fixed = m.bodyB.fixed ∧
    (CollisionSystem.applyResolution m).2.invMass = m.bodyB.invMass ∧
    (CollisionSystem.applyResolution m).2.invInertia = m.bodyB.invInertia ∧
    (m.bodyB.fixed = true → (CollisionSystem.applyResolution m).2.pos = m.bodyB.pos) := by
  unfold CollisionSystem.applyResolution
  by_cases hsum : m.bodyA.invMass + m.bodyB.invMass = 0
  · rw [if_pos hsum]
    exact ⟨rfl, rfl, rfl, rfl, fun _ => rfl⟩
  · rw [if_neg hsum]
    dsimp only
    by_cases hfB : m.bodyB.fixed = true
    · rw [if_pos hfB, if_pos hfB]
      exact ⟨rfl, rfl, rfl, rfl, fun _ => rfl⟩
    · rw [if_neg hfB, if_neg hfB]
      exact ⟨rfl, rfl, rfl, rfl, fun h => absurd h hfB⟩

theorem keepsFixed_resolvePair (ij : ℕ × ℕ) :
    KeepsFixed (fun objs => CollisionSystem.resolvePair objs ij) := by
  intro objs
  dsimp only
  unfold CollisionSystem.resolvePair
  rcases hA : objs[ij.1]? with _ | A <;> (try rw [hA])
  · exact keepsFixed_id objs
  rcases hB : objs[ij.2]? with _ | B <;> (try rw [hB])
  · exact keepsFixed_id objs
  dsimp only
  by_cases hff : (A.fixed && B.fixed) = true
  · rw [if_pos hff]
    exact keepsFixed_id objs
  rw [if_neg hff]
  rcases hm : CollisionSystem.detectCollision A B with _ | m <;> (try rw [hm])
  · exact keepsFixed_id objs
  dsimp only
  by_cases hcol : m.hasCollision = true
  · rw [if_pos hcol]
    obtain ⟨hf1, hf2, hf3, hf4, hf5⟩ := applyResolution_fst m
    obtain ⟨hg1, hg2, hg3, hg4, hg5⟩ := applyResolution_snd m
    rcases detect_bodies A B m hm with ⟨hba, hbb⟩ | ⟨hba, hbb⟩
    · rw [if_pos hba]
      exact keepsFixed_set_pair objs ij.1 ij.2 A B _ _ hA hB
        ⟨by rw [hf1, hba], by rw [hf2, hba], by rw [hf3, hba], by rw [hf4, hba],
          fun hf => by rw [hf5 (by rw [hba]; exact hf), hba]⟩
        ⟨by rw [hg1, hbb], by rw [hg2, hbb], by rw [hg3, hbb], by rw [hg4, hbb],
          fun hf => by rw [hg5 (by rw [hbb]; exact hf), hbb]⟩
    · by_cases hba' : m.bodyA = A
      · rw [if_pos hba']
        have hBA : B = A := by rw [← hba, hba']
        exact keepsFixed_set_pair objs ij.1 ij.2 A B _ _ hA hB
          ⟨by rw [hf1, hba'], by rw [hf2, hba'], by rw [hf3, hba'], by rw [hf4, hba'],
            fun hf => by rw [hf5 (by rw [hba']; exact hf), hba']⟩
          ⟨by rw [hg1, hbb, hBA], by rw [hg2, hbb, hBA], by rw [hg3, hbb, hBA],
            by rw [hg4, hbb, hBA],
            fun hf => by rw [hg5 (by rw [hbb, ← hBA]; exact hf), hbb, hBA]⟩
      · rw [if_neg hba']
        exact keepsFixed_set_pair objs ij.1 ij.2 A B _ _ hA hB
          ⟨by rw [hg1, hbb], by rw [hg2, hbb], by rw [hg3, hbb], by rw [hg4, hbb],
            fun hf => by rw [hg5 (by rw [hbb]; exact hf), hbb]⟩
          ⟨by rw [hf1, hba], by rw [hf2, hba], by rw [hf3, hba], by rw [hf4, hba],
            fun hf => by rw [hf5 (by rw [hba]; exact hf), hba]⟩
  · rw [if_neg hcol]
    exact keepsFixed_id objs

theorem keepsFixed_resolve : KeepsFixed CollisionSystem.resolve := by
  intro objs
  unfold CollisionSystem.resolve
  exact keepsFixed_foldl keepsFixed_resolvePair
    (CollisionSystem.pairIndices objs.length) objs

theorem keepsFixed_substep (cs : List Constraint) (dragged : Option String) (dt : ℝ) :
    KeepsFixed (substep cs dragged dt) := by
  have hcomp := keepsFixed_comp (keepsFixed_comp (keepsFixed_comp
    (keepsFixed_comp (keepsFixed_applyForces dragged) (keepsFixed_integrate dragged dt))
    keepsFixed_updateGeometry)
    (keepsFixed_iterate (keepsFixed_solve cs) constraintIterations)) keepsFixed_resolve
  intro objs
  exact hcomp objs

theorem engineStep_core_objects (s : EngineState) :
    (engineStep s).core.objects =
      (substep s.core.constraints s.core.dragged (DT / (subSteps : ℝ)))^[subSteps]
        s.core.objects := rfl

theorem engineStep_core_constraints (s : EngineState) :
    (engineStep s).core.constraints = s.core.constraints := rfl

theorem engineStep_core_dragged (s : EngineState) :
    (engineStep s).core.dragged = s.core.dragged := rfl

/-- Any number of engine steps keeps every body's slot, identity, fixed flag,
inverse masses, and never moves a fixed body. -/
theorem stepN_fixed (n : ℕ) : ∀ (s : EngineState) (i : ℕ) (o : SimObject),
    s.core.objects[i]? = some o →
    ∃ o', ((engineStep)^[n] s).core.objects[i]? = some o' ∧
      o'.id = o.id ∧ o'.fixed = o.fixed ∧ o'.invMass = o.invMass ∧
      o'.invInertia = o.invInertia ∧ (o.fixed = true → o'.pos = o.pos) := by
  induction n with
  | zero =>
    intro s i o h
    exact ⟨o, h, rfl, rfl, rfl, rfl, fun _ => rfl⟩
  | succ m ih =>
    intro s i o h
    have hone := (keepsFixed_iterate
      (keepsFixed_substep s.core.constraints s.core.dragged (DT / (subSteps : ℝ)))
      subSteps) s.core.objects
    obtain ⟨o1, h1, hid1, hfx1, him1, hii1, hp1⟩ := hone.2 i o h
    rw [← engineStep_core_objects] at h1
    obtain ⟨o2, h2, hid2, hfx2, him2, hii2, hp2⟩ := ih (engineStep s) i o1 h1
    rw [← Function.iterate_succ_apply] at h2
    refine ⟨o2, h2, hid2.trans hid1, hfx2.trans hfx1, him2.trans him1, hii2.trans hii1, ?_⟩
    intro hfo
    rw [hp2 (by rw [hfx1, hfo]), hp1 hfo]

theorem goodInv_of_keepsFixed {f : List SimObject → List SimObject} (hf : KeepsFixed f)
    (objs : List SimObject) (h : goodInv objs) : goodInv (f objs) := by
  intro o' hmem hfx
  obtain ⟨i, hget⟩ := List.mem_iff_getElem?.mp hmem
  have hlt : i < objs.length := by
    rcases List.getElem?_eq_some_iff.mp hget with ⟨hl, _⟩
    rw [← (hf objs).1]
    exact hl
  have hgo' : objs[i]? = some objs[i] := List.getElem?_eq_getElem hlt
  obtain ⟨o2, hgf, hid, hfx', him, hii, _⟩ := (hf objs).2 i _ hgo'
  rw [hget] at hgf
  injection hgf with hgf
  subst hgf
  have hmemo : objs[i] ∈ objs := List.getElem?_mem hgo'
  have hobase := h _ hmemo (by rw [← hfx', hfx])
  exact ⟨by rw [him, hobase.1], by rw [hii, hobase.2]⟩

theorem addBody_objects (s : CoreState) (k : ShapeType) (cfg : SimObjectConfig) :
    (addBody s k cfg).1.objects = s.objects ++ [(addBody s k cfg).2] := rfl

theorem addBody_new_good (s : CoreState) (k : ShapeType) (cfg : SimObjectConfig) :
    (addBody s k cfg).2.fixed = true →
      (addBody s k cfg).2.invMass = 0 ∧ (addBody s k cfg).2.invInertia = 0 := by
  by_cases hk : k = ShapeType.plane
  · subst hk
    unfold addBody
    dsimp only
    rw [if_pos rfl]
    rw [updateGeometry_invMass, updateGeometry_invInertia]
    exact fun _ => ⟨rfl, rfl⟩
  · intro hf
    have hgetD : cfg.fixed.getD false = true := by
      rw [← addBody_fixed_eq s k cfg hk]
      exact hf
    have hm : (addBody s k cfg).2.mass = 0 := by
      rw [addBody_mass_eq s k cfg hk, hgetD]
      rw [if_pos rfl]
    constructor
    · rw [addBody_invMass_eq s k cfg hk, if_pos hm]
    · rw [addBody_invInertia_eq s k cfg hk, if_pos (Or.inr (by rw [hgetD]))]

theorem goodInv_addBody (s : CoreState) (k : ShapeType) (cfg : SimObjectConfig)
    (h : goodInv s.objects) : goodInv (addBody s k cfg).1.objects := by
  rw [addBody_objects]
  intro o hmem hfx
  rcases List.mem_append.mp hmem with hmem' | hmem'
  · exact h o hmem' hfx
  · rcases List.mem_singleton.mp hmem' with rfl
    exact addBody_new_good s k cfg hfx

theorem connect_objects (s : CoreState) (idA idB : String) (cfg : ConnectConfig) :
    (connect s idA idB cfg).objects = s.objects := by
  unfold connect
  rcases h1 : s.objects.find? (fun o => o.id == idA) with _ | a <;> (try rw [h1]) <;>
    rcases h2 : s.objects.find? (fun o => o.id == idB) with _ | b <;> (try rw [h2]) <;> rfl

theorem goodInv_foldl {β γ : Type} (proj : γ → CoreState) (step : γ → β → γ)
    (hstep : ∀ g b, goodInv (proj g).objects → goodInv (proj (step g b)).objects) :
    ∀ (items : List β) (g : γ), goodInv (proj g).objects →
      goodInv (proj (items.foldl step g)).objects := by
  intro items
  induction items with
  | nil => intro g h; exact h
  | cons b bs ih =>
    intro g h
    exact ih (step g b) (hstep g b h)

theorem goodInv_clothParticleStep (config : SimObjectConfig) (startX startY dx dy : ℝ)
    (y : ℕ) (acc2 : CoreState × List String) (x : ℕ)
    (h : goodInv acc2.1.objects) :
    goodInv (clothParticleStep config startX startY dx dy y acc2 x).1.objects := by
  unfold clothParticleStep
  exact goodInv_addBody _ _ _ h

theorem goodInv_clothRowStep (config : SimObjectConfig) (startX startY dx dy : ℝ)
    (segX : ℕ) (acc : CoreState × List (List String)) (y : ℕ)
    (h : goodInv acc.1.objects) :
    goodInv (clothRowStep config startX startY dx dy segX acc y).1.objects := by
  unfold clothRowStep
  dsimp only
  exact goodInv_foldl Prod.fst (clothParticleStep config startX startY dx dy y)
    (goodInv_clothParticleStep config startX startY dx dy y)
    (List.range (segX + 1)) (acc.1, []) h

theorem clothConnectStep_objects (grid : List (List String)) (segX segY y : ℕ)
    (st' : CoreState) (x : ℕ) :
    (clothConnectStep grid segX segY y st' x).objects = st'.objects := by
  unfold clothConnectStep
  split <;> split <;> simp only [connect_objects]

theorem clothConnectRow_objects (grid : List (List String)) (segX segY : ℕ)
    (st : CoreState) (y : ℕ) :
    (clothConnectRow grid segX segY st y).objects = st.objects := by
  unfold clothConnectRow
  generalize List.range (segX + 1) = items
  induction items generalizing st with
  | nil => rfl
  | cons b bs ih =>
    show ((bs.foldl (clothConnectStep grid segX segY y)
      (clothConnectStep grid segX segY y st b))).objects = st.objects
    rw [ih (clothConnectStep grid segX segY y st b), clothConnectStep_objects]

theorem goodInv_addCloth (s : CoreState) (cfg : SimObjectConfig)
    (h : goodInv s.objects) : goodInv (addCloth s cfg).1.objects := by
  unfold addCloth
  dsimp only
  have hseed : goodInv (((List.range (jsOrN cfg.segmentsY 10 + 1)).foldl
      (clothRowStep cfg (jsOr cfg.x 0 - jsOr cfg.width 4 / 2)
        (jsOr cfg.y 0 + jsOr cfg.height 4 / 2)
        (jsOr cfg.width 4 / (jsOrN cfg.segmentsX 10 : ℝ))
        (jsOr cfg.height 4 / (jsOrN cfg.segmentsY 10 : ℝ)) (jsOrN cfg.segmentsX 10))
      (s, ([] : List (List String)))).1).objects := by
    exact goodInv_foldl Prod.fst _
      (goodInv_clothRowStep cfg _ _ _ _ _) (List.range (jsOrN cfg.segmentsY 10 + 1))
      (s, ([] : List (List String))) h
  set seeded := (List.range (jsOrN cfg.segmentsY 10 + 1)).foldl
      (clothRowStep cfg (jsOr cfg.x 0 - jsOr cfg.width 4 / 2)
        (jsOr cfg.y 0 + jsOr cfg.height 4 / 2)
        (jsOr cfg.width 4 / (jsOrN cfg.segmentsX 10 : ℝ))
        (jsOr cfg.height 4 / (jsOrN cfg.segmentsY 10 : ℝ)) (jsOrN cfg.segmentsX 10))
      (s, ([] : List (List String))) with hseeddef
  have hs2 : goodInv (((List.range (jsOrN cfg.segmentsY 10 + 1)).foldl
      (clothConnectRow seeded.2 (jsOrN cfg.segmentsX 10) (jsOrN cfg.segmentsY 10))
      seeded.1)).objects := by
    apply goodInv_foldl id
      (clothConnectRow seeded.2 (jsOrN cfg.segmentsX 10) (jsOrN cfg.segmentsY 10))
    · intro g b hg
      show goodInv (clothConnectRow seeded.2 _ _ g b).objects
      rw [clothConnectRow_objects]
      exact hg
    · exact hseed
  set s2 := (List.range (jsOrN cfg.segmentsY 10 + 1)).foldl
      (clothConnectRow seeded.2 (jsOrN cfg.segmentsX 10) (jsOrN cfg.segmentsY 10))
      seeded.1 with hs2def
  rcases hfind : s2.objects.find? (fun o => o.id == gridGet seeded.2 0 0) with _ | obj <;>
    (try rw [hfind]) <;> exact hs2

theorem startDrag_objects (s : CoreState) (x y : ℝ) :
    (startDrag s x y).objects = s.objects := by
  unfold startDrag
  rcases h : s.objects.reverse.find? _ with _ | o <;> (try rw [h]) <;> rfl

theorem goodInv_updateDrag (s : CoreState) (x y : ℝ) (h : goodInv s.objects) :
    goodInv (updateDrag s x y).objects := by
  unfold updateDrag
  rcases hd : s.dragged with _ | d <;> (try rw [hd])
  · exact h
  dsimp only
  rcases hi : s.objects.findIdx? (fun o => o.id == d) with _ | i <;> (try rw [hi])
  · exact h
  dsimp only
  rcases hg : s.objects[i]? with _ | obj <;> (try rw [hg])
  · exact h
  dsimp only
  intro o' hmem hfx
  rcases List.mem_or_eq_of_mem_set hmem with hmem' | rfl
  · exact h o' hmem' hfx
  · exact h obj (List.getElem?_mem hg) hfx

theorem goodInv_add (s : CoreState) (k : ShapeType) (cfg : SimObjectConfig)
    (h : goodInv s.objects) : goodInv (add s k cfg).1.objects := by
  unfold add
  by_cases hk : k = ShapeType.cloth
  · rw [if_pos hk]
    exact goodInv_addCloth s cfg h
  · rw [if_neg hk]
    exact goodInv_addBody s k cfg h

theorem goodInv_applyEvent (s : EngineState) (e : Event) (h : goodInv s.core.objects) :
    goodInv (applyEvent s e).core.objects := by
  cases e with
  | add t cfg => exact goodInv_add s.core t cfg h
  | connect a b cfg =>
    show goodInv (connect s.core a b cfg).objects
    rw [connect_objects]
    exact h
  | reset =>
    intro o ho hfx
    exact absurd ho (List.not_mem_nil o)
  | step =>
    show goodInv (engineStep s).core.objects
    rw [engineStep_core_objects]
    exact goodInv_of_keepsFixed (keepsFixed_iterate
      (keepsFixed_substep s.core.constraints s.core.dragged (DT / (subSteps : ℝ)))
      subSteps) s.core.objects h
  | startDrag x y =>
    show goodInv (startDrag s.core x y).objects
    rw [startDrag_objects]
    exact h
  | updateDrag x y => exact goodInv_updateDrag s.core x y h
  | endDrag => exact h

theorem goodInv_runEvents (es : List Event) :
    ∀ s : EngineState, goodInv s.core.objects → goodInv (runEvents es s).core.objects := by
  induction es with
  | nil => intro s h; exact h
  | cons e es ih =>
    intro s h
    exact ih (applyEvent s e) (goodInv_applyEvent s e h)

/-- C1: in every engine state reachable through the public surface, every
fixed body has invMass = 0 and invInertia = 0, and its position is unchanged
by any number of step() calls; moreover the Verlet integrator, the constraint
solver pass, and collision resolution each individually never move a fixed
body. -/
theorem C1_fixed_bodies (r : ℕ → ℝ) (es : List Event) :
    (∀ o ∈ (runEvents es (initEngine r)).core.objects, o.fixed = true →
      o.invMass = 0 ∧ o.invInertia = 0) ∧
    (∀ (n i : ℕ) (o : SimObject),
      (runEvents es (initEngine r)).core.objects[i]? = some o → o.fixed = true →
      ∃ o', ((engineStep)^[n] (runEvents es (initEngine r))).core.objects[i]? = some o' ∧
        o'.fixed = true ∧ o'.pos = o.pos) ∧
    (∀ (dragged : Option String) (dt : ℝ) (objs : List SimObject) (i : ℕ) (o : SimObject),
      objs[i]? = some o → o.fixed = true →
      ∃ o', (integrate dragged dt objs)[i]? = some o' ∧ o'.pos = o.pos) ∧
    (∀ (cs : List Constraint) (objs : List SimObject) (i : ℕ) (o : SimObject),
      objs[i]? = some o → o.fixed = true →
      ∃ o', (ConstraintSystem.solve cs objs)[i]? = some o' ∧ o'.pos = o.pos) ∧
    (∀ (objs : List SimObject) (i : ℕ) (o : SimObject),
      objs[i]? = some o → o.fixed = true →
      ∃ o', (CollisionSystem.resolve objs)[i]? = some o' ∧ o'.pos = o.pos) := by
  refine ⟨?_, ?_, ?_, ?_, ?_⟩
  · exact goodInv_runEvents es (initEngine r)
      (fun o ho _ => absurd ho (List.not_mem_nil o))
  · intro n i o hget hfx
    obtain ⟨o', h1, _, hfx', _, _, hp⟩ := stepN_fixed n _ i o hget
    exact ⟨o', h1, by rw [hfx', hfx], hp hfx⟩
  · intro dragged dt objs i o hget hfx
    obtain ⟨o', h1, _, _, _, _, hp⟩ := (keepsFixed_integrate dragged dt objs).2 i o hget
    exact ⟨o', h1, hp hfx⟩
  · intro cs objs i o hget hfx
    obtain ⟨o', h1, _, _, _, _, hp⟩ := (keepsFixed_solve cs objs).2 i o hget
    exact ⟨o', h1, hp hfx⟩
  · intro objs i o hget hfx
    obtain ⟨o', h1, _, _, _, _, hp⟩ := (keepsFixed_resolve objs).2 i o hget
    exact ⟨o', h1, hp hfx⟩

theorem C1_fixed_bodies_witness :
    ∃ o', ((engineStep)^[2] (runEvents esW (initEngine halfStream))).core.objects[0]? =
        some o' ∧ o'.fixed = true ∧ o'.pos = oW.pos :=
  (C1_fixed_bodies halfStream esW).2.1 2 0 oW rfl rfl

end PhysicsLLM
